import Mathlib

/-!
Shallow embedding of the reconciliation core of the shopify-collections-bot
repository: the smart-collection rule-set differ (src/shopify/collectionsApi.ts),
the sync planners (collectionsSync / menusSync), the menu-tree differ and audit
(menuCleanup), the redirect-chain consolidator (src/shopify/seoApi.ts) and the
tag validator (src/wyn/tags/tagAudit.ts, src/config/taggingSpecLoader.ts).

External effects (GraphQL fetches) are modelled by passing the fetched snapshot
or an explicit failure marker as an argument; JavaScript `Map` objects are
modelled as association lists with insert-or-overwrite semantics and JS `Set`
membership as list membership; `String.prototype.toLowerCase` is modelled as
ASCII lowercasing.
-/

namespace WynModel

/-- ASCII lowercasing of one character, as `toLowerCase` acts on the ASCII
titles and handles this system manipulates. -/
def lowerChar (c : Char) : Char :=
  if 'A' ≤ c ∧ c ≤ 'Z' then Char.ofNat (c.toNat + 32) else c

/-- Model of `s.toLowerCase()`. -/
def lowerString (s : String) : String :=
  (s.toList.map lowerChar).asString

/-- JS `Map.set`: overwrite the binding in place if the key is present (keys
are unique, so the first occurrence is the only one), otherwise append. -/
def mapInsert {α : Type} : List (String × α) → String → α → List (String × α)
  | [], k, v => [(k, v)]
  | (k1, v1) :: rest, k, v =>
    if k1 = k then (k, v) :: rest else (k1, v1) :: mapInsert rest k v

/-- JS `Map.get`: the value bound to `k`, if any. -/
def mapLookup {α : Type} (m : List (String × α)) (k : String) : Option α :=
  (m.find? (fun p => p.1 = k)).map (fun p => p.2)

/-- JS `Map.has`. -/
def mapHasKey {α : Type} (m : List (String × α)) (k : String) : Bool :=
  (mapLookup m k).isSome

/-- JS `new Map(entries)` / repeated `set` over a list of entries. -/
def mapOfEntries {α : Type} (entries : List (String × α)) : List (String × α) :=
  entries.foldl (fun m p => mapInsert m p.1 p.2) []

/-- Result of an awaited fetch of a single remote entity, as seen by a caller
with a `try`/`catch` around it: `ok (some x)` is a resolved entity, `ok none`
is a remote null, `failed e` is a thrown transport error. -/
inductive Fetched (α : Type) where
  | ok : Option α → Fetched α
  | failed : String → Fetched α

-- ===========================================
-- Rule-set differ (src/shopify/collectionsApi.ts)
-- ===========================================

/-- SmartRuleCondition from src/types.ts: field, relation and value of one
declared smart-collection condition. -/
structure SmartRuleCondition where
  field : String
  relation : String
  value : String
deriving DecidableEq, Repr

/-- SmartRules from src/types.ts. -/
structure SmartRules where
  appliedDisjunctively : Bool
  conditions : List SmartRuleCondition
deriving DecidableEq, Repr

/-- One rule of a live Shopify collection rule set. -/
structure ShopifyRule where
  column : String
  relation : String
  condition : String
deriving DecidableEq, Repr

/-- The live `ruleSet` payload of a Shopify collection. -/
structure RuleSet where
  appliedDisjunctively : Bool
  rules : List ShopifyRule
deriving DecidableEq, Repr

/-- CollectionConfigEntry from src/types.ts; `smart_rules` is optional at the
use sites (`compareRuleSets` and `buildCollectionInput` both null-check it). -/
structure CollectionConfigEntry where
  key : String
  title : String
  handle : String
  description : String
  type : String
  sort_order : Option String
  smart_rules : Option SmartRules
deriving DecidableEq, Repr

/-- mapFieldToShopifyColumn: internal field names to Shopify
CollectionRuleColumn values, falling back to the input itself. -/
def mapFieldToShopifyColumn (field : String) : String :=
  if field = "TAG" then "TAG"
  else if field = "VENDOR" then "VENDOR"
  else if field = "PRODUCT_TYPE" then "TYPE"
  else if field = "VARIANT_PRICE" then "VARIANT_PRICE"
  else if field = "VARIANT_COMPARE_AT_PRICE" then "VARIANT_COMPARE_AT_PRICE"
  else if field = "VARIANT_WEIGHT" then "VARIANT_WEIGHT"
  else if field = "VARIANT_INVENTORY" then "VARIANT_INVENTORY_QTY"
  else if field = "VARIANT_TITLE" then "VARIANT_TITLE"
  else field

/-- mapRelationToShopify: every known relation maps to itself and the fallback
returns the input, so the map is the identity. -/
def mapRelationToShopify (relation : String) : String :=
  if relation = "EQUALS" then "EQUALS"
  else if relation = "NOT_EQUALS" then "NOT_EQUALS"
  else if relation = "GREATER_THAN" then "GREATER_THAN"
  else if relation = "LESS_THAN" then "LESS_THAN"
  else if relation = "STARTS_WITH" then "STARTS_WITH"
  else if relation = "ENDS_WITH" then "ENDS_WITH"
  else if relation = "CONTAINS" then "CONTAINS"
  else if relation = "NOT_CONTAINS" then "NOT_CONTAINS"
  else relation

/-- mapSortOrderToShopify: `undefined`/empty input gives `undefined`; every
known sort order maps to itself and the fallback returns the input, so a
non-empty input is returned unchanged. -/
def mapSortOrderToShopify : Option String → Option String
  | none => none
  | some s => if s = "" then none else some s

/-- Canonical key of a live rule, as built in `compareRuleSets`:
`column|relation|condition`. -/
def ruleKey (r : ShopifyRule) : String :=
  r.column ++ "|" ++ r.relation ++ "|" ++ r.condition

/-- Canonical key of a declared condition, as built in `compareRuleSets`:
mapped field, mapped relation and raw value joined by `|`. -/
def condKey (c : SmartRuleCondition) : String :=
  mapFieldToShopifyColumn c.field ++ "|" ++ mapRelationToShopify c.relation
    ++ "|" ++ c.value

/-- compareRuleSets from src/shopify/collectionsApi.ts. The final loop iterates
the JS `Set` of declared keys and fails when one is missing from the live key
set; checking every declared key against live-key membership is the same test.
-/
def compareRuleSets (existing : Option RuleSet)
    (config : CollectionConfigEntry) : Bool :=
  match existing, config.smart_rules with
  | none, none => true
  | none, some sr => if sr.conditions.length = 0 then true else false
  | some _, none => false
  | some ex, some sr =>
    if ex.appliedDisjunctively ≠ sr.appliedDisjunctively then false
    else if ex.rules.length ≠ sr.conditions.length then false
    else
      (sr.conditions.map condKey).all
        (fun k => (ex.rules.map ruleKey).contains k)

/-- Modelled from the spec, for comparison with `compareRuleSets` (the code is
the authority): two rule sets are models of the same collection iff their
disjunctive flags match and their normalized condition keys are equal as
unordered multisets. -/
def specRuleSetsEquivalent (existing : Option RuleSet)
    (config : CollectionConfigEntry) : Prop :=
  (match existing, config.smart_rules with
    | none, none => True
    | none, some sr => sr.conditions = []
    | some _, none => False
    | some ex, some sr => ex.appliedDisjunctively = sr.appliedDisjunctively) ∧
  Multiset.ofList ((match existing with
    | none => []
    | some ex => ex.rules).map ruleKey) =
  Multiset.ofList ((match config.smart_rules with
    | none => []
    | some sr => sr.conditions).map condKey)

/-- The live rule set that `buildCollectionInput` produces from declared
smart rules (the `rules`/`appliedDisjunctively` payload sent on create). -/
def liveRuleSetOf (sr : SmartRules) : RuleSet where
  appliedDisjunctively := sr.appliedDisjunctively
  rules := sr.conditions.map (fun c =>
    { column := mapFieldToShopifyColumn c.field
      relation := mapRelationToShopify c.relation
      condition := c.value })

-- ===========================================
-- Collection sync planner (collectionsSync module)
-- ===========================================

/-- ShopifyCollection from src/types.ts, restricted to the fields the
reconciliation logic reads. -/
structure ShopifyCollection where
  id : String
  handle : String
  title : String
  sortOrder : Option String
  ruleSet : Option RuleSet
  productsCount : Option Nat
deriving DecidableEq, Repr

/-- determineCollectionChanges from src/shopify/collectionsApi.ts: the list of
human-readable deltas between a live collection and its declared config. -/
def determineCollectionChanges (existing : ShopifyCollection)
    (config : CollectionConfigEntry) : List String :=
  (if existing.title ≠ config.title then
    ["Title: \"" ++ existing.title ++ "\" -> \"" ++ config.title ++ "\""]
  else []) ++
  (match mapSortOrderToShopify config.sort_order with
    | some so =>
      if existing.sortOrder ≠ some so then
        ["Sort order: \"" ++ (existing.sortOrder.getD "undefined") ++ "\" -> \""
          ++ so ++ "\""]
      else []
    | none => []) ++
  (if compareRuleSets existing.ruleSet config = false then
    ["Rule set differs"]
  else [])

/-- summarizeCollectionRules from src/config/collectionsConfig.ts. -/
def summarizeCollectionRules (collection : CollectionConfigEntry) : String :=
  match collection.smart_rules with
  | none => "No rules"
  | some sr =>
    if sr.conditions.length = 0 then "No rules"
    else
      String.intercalate
        (if sr.appliedDisjunctively then " OR " else " AND ")
        (sr.conditions.map (fun c => c.value))

/-- CollectionSyncPlan from src/types.ts. -/
structure CollectionSyncPlan where
  handle : String
  title : String
  action : String
  ruleSummary : String
  existingId : Option String
  changes : Option (List String)
deriving DecidableEq, Repr

/-- planSingleCollectionSync from the collections sync module: the pure
classification applied to the outcome of `getCollectionByHandle`. A thrown
fetch error is caught and the entity is planned as a create. -/
def planSingleCollectionSync (fetched : Fetched ShopifyCollection)
    (collection : CollectionConfigEntry) : CollectionSyncPlan :=
  let ruleSummary := summarizeCollectionRules collection
  match fetched with
  | .failed _ =>
    { handle := collection.handle, title := collection.title
      action := "create", ruleSummary := ruleSummary
      existingId := none, changes := none }
  | .ok none =>
    { handle := collection.handle, title := collection.title
      action := "create", ruleSummary := ruleSummary
      existingId := none, changes := none }
  | .ok (some existing) =>
    let changes := determineCollectionChanges existing collection
    if changes.length = 0 then
      { handle := collection.handle, title := collection.title
        action := "noop", ruleSummary := ruleSummary
        existingId := some existing.id, changes := none }
    else
      { handle := collection.handle, title := collection.title
        action := "update", ruleSummary := ruleSummary
        existingId := some existing.id, changes := some changes }

-- ===========================================
-- Redirect chain consolidator (src/shopify/seoApi.ts)
-- ===========================================

/-- UrlRedirect from src/shopify/seoApi.ts. -/
structure UrlRedirect where
  id : String
  path : String
  target : String
deriving DecidableEq, Repr

/-- One entry of the `chains` report of `consolidateRedirectChains`. -/
structure ChainRecord where
  original : String
  intermediate : String
  final : String
deriving DecidableEq, Repr

/-- Outcome of one `consolidateRedirectChains` pass over a redirect snapshot:
the `consolidated` count and `chains` report it returns, plus the store state
the issued `updateUrlRedirect` calls leave behind. -/
structure ConsolidationResult where
  consolidated : Nat
  chains : List ChainRecord
  finalEdges : List UrlRedirect
deriving DecidableEq, Repr

/-- The `from -> redirect` map built once at the start of the pass:
`new Map(allRedirects.map(r => [r.path, r]))`. -/
def buildRedirectMap (allRedirects : List UrlRedirect) :
    List (String × UrlRedirect) :=
  mapOfEntries (allRedirects.map (fun r => (r.path, r)))

/-- consolidateRedirectChains from src/shopify/seoApi.ts, on a fetched
snapshot. For each redirect in order, the target is looked up in the map built
from the original snapshot (the map is never updated during the loop); on a
hit, a chain record is pushed, the count incremented, and the redirect
rewritten to the next redirect's original target. -/
def consolidateRedirectChains (allRedirects : List UrlRedirect) :
    ConsolidationResult :=
  let redirectMap := buildRedirectMap allRedirects
  let chains := allRedirects.filterMap (fun r =>
    (mapLookup redirectMap r.target).map (fun nr =>
      { original := r.path, intermediate := r.target, final := nr.target }))
  { consolidated := chains.length
    chains := chains
    finalEdges := allRedirects.map (fun r =>
      match mapLookup redirectMap r.target with
      | some nr => { id := r.id, path := r.path, target := nr.target }
      | none => r) }

-- ===========================================
-- Tag validator (tagAudit.ts / taggingSpecLoader.ts)
-- ===========================================

/-- Membership of a character in a string, as JS `String.prototype.includes`
with a one-character needle. -/
def strContainsChar (s : String) (c : Char) : Bool :=
  s.toList.contains c

/-- ParsedTaggingSpec from src/types.ts. -/
structure ParsedTaggingSpec where
  allowedDimensions : List String
  allowedFamilies : List String
  allowedBrands : List String
  allowedMaterials : List String
  allowedFormats : List String
  allowedUses : List String
  allowedStyles : List String
  allowedPillars : List String
deriving DecidableEq, Repr

/-- ProductTagData from src/types.ts. -/
structure ProductTagData where
  handle : String
  title : String
  vendor : String
  type : String
  tags : List String
deriving DecidableEq, Repr

/-- TagAuditError from src/types.ts; the error type is kept as the literal
string the source uses. -/
structure TagAuditError where
  handle : String
  title : String
  errorType : String
  message : String
  tags : List String
deriving DecidableEq, Repr

/-- Result of parseTag: a tag split at its first `:` into dimension and value
(the value keeps any further colons, as `valueParts.join(':')` does). -/
structure ParsedTag where
  dimension : String
  value : String
deriving DecidableEq, Repr

/-- parseTag from src/wyn/tags/tagAudit.ts. -/
def parseTag (tag : String) : Option ParsedTag :=
  if strContainsChar tag ':' then
    some
      { dimension := (tag.toList.takeWhile (fun c => c ≠ ':')).asString
        value := ((tag.toList.dropWhile (fun c => c ≠ ':')).drop 1).asString }
  else none

/-- validateTag from src/config/taggingSpecLoader.ts; `none` is a valid tag,
`some msg` an invalid one with its error message. The destructuring
`[dimension, value] = tag.split(':')` keeps only the first two components, so
the value here stops at a second colon. -/
def validateTag (tag : String) (spec : ParsedTaggingSpec) : Option String :=
  if ¬ strContainsChar tag ':' then
    some ("Tag \"" ++ tag ++ "\" is not in dimension:value format")
  else
    let dimension := (tag.toList.takeWhile (fun c => c ≠ ':')).asString
    let value := (((tag.toList.dropWhile (fun c => c ≠ ':')).drop 1).takeWhile
      (fun c => c ≠ ':')).asString
    if ¬ spec.allowedDimensions.contains dimension then
      some ("Unknown dimension \"" ++ dimension ++ "\" in tag \"" ++ tag ++ "\"")
    else if dimension = "pillar" then
      if ¬ spec.allowedPillars.contains value then
        some ("Unknown pillar value \"" ++ value ++ "\"")
      else none
    else if dimension = "family" then
      if ¬ spec.allowedFamilies.contains value then
        some ("Unknown family value \"" ++ value ++ "\"")
      else none
    else if dimension = "brand" then none
    else if dimension = "material" then
      if ¬ spec.allowedMaterials.contains value then
        some ("Unknown material value \"" ++ value ++ "\"")
      else none
    else if dimension = "format" then
      if ¬ spec.allowedFormats.contains value then
        some ("Unknown format value \"" ++ value ++ "\"")
      else none
    else if dimension = "use" then
      if ¬ spec.allowedUses.contains value then
        some ("Unknown use value \"" ++ value ++ "\"")
      else none
    else if dimension = "style" then
      if ¬ spec.allowedStyles.contains value then
        some ("Unknown style value \"" ++ value ++ "\"")
      else none
    else none

/-- The shape heuristic of validateProductTags for a separator-less tag: report
it only when it contains a hyphen or matches `/^[a-z]+$/`. -/
def looksStructured (tag : String) : Bool :=
  strContainsChar tag '-' ||
    (tag ≠ "" && tag.toList.all (fun c => 'a' ≤ c && c ≤ 'z'))

/-- Constructor for the audit errors validateProductTags pushes: every error
carries the product's handle, title and full tag list. -/
def mkTagError (p : ProductTagData) (ty msg : String) : TagAuditError :=
  { handle := p.handle, title := p.title, errorType := ty, message := msg
    tags := p.tags }

/-- The per-tag loop of validateProductTags: a separator-less tag is reported
as `unknown_dimension` only when it looks structured, and a parsed tag that
fails validateTag is reported as `unknown_value`. -/
def loopErrors (p : ProductTagData) (spec : ParsedTaggingSpec) :
    List TagAuditError :=
  p.tags.flatMap (fun tag =>
    match parseTag tag with
    | none =>
      if looksStructured tag then
        [mkTagError p "unknown_dimension"
          ("Tag \"" ++ tag ++ "\" is not in dimension:value format")]
      else []
    | some _ =>
      match validateTag tag spec with
      | some err => [mkTagError p "unknown_value" err]
      | none => [])

/-- The per-dimension accumulation of the same loop: values of the tags whose
parsed dimension is `d`, in tag order. -/
def collectDim (d : String) (tags : List String) : List String :=
  tags.filterMap (fun t =>
    match parseTag t with
    | some pt => if pt.dimension = d then some pt.value else none
    | none => none)

/-- validateProductTags from src/wyn/tags/tagAudit.ts: the per-tag loop errors
followed by the cardinality checks for pillar, family, format and use. -/
def validateProductTags (p : ProductTagData) (spec : ParsedTaggingSpec) :
    List TagAuditError :=
  let pillarTags := collectDim "pillar" p.tags
  let familyTags := collectDim "family" p.tags
  let formatTags := collectDim "format" p.tags
  let useTags := collectDim "use" p.tags
  loopErrors p spec ++
  (if pillarTags.length = 0 then
    [mkTagError p "missing_pillar" "Missing pillar tag"]
  else if pillarTags.length > 1 then
    [mkTagError p "multiple_pillars"
      ("Multiple pillar tags found: " ++ String.intercalate ", " pillarTags)]
  else []) ++
  (if familyTags.length = 0 then
    [mkTagError p "missing_family" "Missing family tag"]
  else if familyTags.length > 1 then
    [mkTagError p "multiple_families"
      ("Multiple family tags found: " ++ String.intercalate ", " familyTags)]
  else []) ++
  (if formatTags.length = 0 then
    [mkTagError p "missing_format" "Missing format tag"]
  else if formatTags.length > 1 then
    [mkTagError p "multiple_formats"
      ("Multiple format tags found: " ++ String.intercalate ", " formatTags)]
  else []) ++
  (if useTags.length = 0 then
    [mkTagError p "missing_use" "Missing use tag"]
  else [])

/-- Number of diagnostics of a given error type in an audit result. -/
def countErrType (errors : List TagAuditError) (ty : String) : Nat :=
  (errors.filter (fun e => e.errorType = ty)).length

-- ===========================================
-- Menu data model (src/types.ts)
-- ===========================================

/-- ShopifyMenuItem from src/types.ts: a live menu node with nested items. -/
inductive ShopifyMenuItem where
  | mk (id title type : String) (resourceId url : Option String)
      (items : List ShopifyMenuItem)

/-- Menu item id accessor. -/
def ShopifyMenuItem.id : ShopifyMenuItem → String
  | .mk i _ _ _ _ _ => i

/-- Menu item title accessor. -/
def ShopifyMenuItem.title : ShopifyMenuItem → String
  | .mk _ t _ _ _ _ => t

/-- Menu item type accessor. -/
def ShopifyMenuItem.type : ShopifyMenuItem → String
  | .mk _ _ ty _ _ _ => ty

/-- Menu item resourceId accessor. -/
def ShopifyMenuItem.resourceId : ShopifyMenuItem → Option String
  | .mk _ _ _ r _ _ => r

/-- Menu item url accessor. -/
def ShopifyMenuItem.url : ShopifyMenuItem → Option String
  | .mk _ _ _ _ u _ => u

/-- Menu item children accessor. -/
def ShopifyMenuItem.items : ShopifyMenuItem → List ShopifyMenuItem
  | .mk _ _ _ _ _ l => l

/-- MenuItemConfigEntry from src/types.ts: a declared menu node; the optional
`children` array is modelled as a list (absent becomes the empty list, which
the traversals treat identically). -/
inductive MenuItemConfigEntry where
  | mk (title type : String) (target_collection_handle url : Option String)
      (children : List MenuItemConfigEntry)

/-- Declared item title accessor. -/
def MenuItemConfigEntry.title : MenuItemConfigEntry → String
  | .mk t _ _ _ _ => t

/-- Declared item type accessor. -/
def MenuItemConfigEntry.type : MenuItemConfigEntry → String
  | .mk _ ty _ _ _ => ty

/-- Declared item target collection handle accessor. -/
def MenuItemConfigEntry.target_collection_handle :
    MenuItemConfigEntry → Option String
  | .mk _ _ h _ _ => h

/-- Declared item url accessor. -/
def MenuItemConfigEntry.url : MenuItemConfigEntry → Option String
  | .mk _ _ _ u _ => u

/-- Declared item children accessor. -/
def MenuItemConfigEntry.children : MenuItemConfigEntry → List MenuItemConfigEntry
  | .mk _ _ _ _ c => c

/-- MenuConfigEntry from src/types.ts. -/
structure MenuConfigEntry where
  handle : String
  title : String
  items : List MenuItemConfigEntry

/-- ShopifyMenu from src/types.ts. -/
structure ShopifyMenu where
  id : String
  handle : String
  title : String
  items : List ShopifyMenuItem

/-- MenuSyncPlan from src/types.ts. -/
structure MenuSyncPlan where
  handle : String
  title : String
  action : String
  existingId : Option String
  itemCount : Nat
  changes : Option (List String)
deriving DecidableEq, Repr

-- ===========================================
-- Menu helpers (menusConfig.ts / menusApi.ts)
-- ===========================================

/-- countMenuItems from src/config/menusConfig.ts: total declared items,
nested ones included. -/
def countMenuItems : List MenuItemConfigEntry → Nat
  | [] => 0
  | .mk _ _ _ _ children :: rest =>
    1 + countMenuItems children + countMenuItems rest

/-- countShopifyMenuItems from src/shopify/menusApi.ts. -/
def countShopifyMenuItems : List ShopifyMenuItem → Nat
  | [] => 0
  | .mk _ _ _ _ _ children :: rest =>
    1 + countShopifyMenuItems children + countShopifyMenuItems rest

/-- Deduplication in first-occurrence order, as `[...new Set(xs)]`. -/
def jsSetDedup : List String → List String
  | [] => []
  | x :: rest => x :: jsSetDedup (rest.filter (fun y => y ≠ x))
termination_by l => l.length
decreasing_by
  simp only [List.length_cons]
  exact Nat.lt_succ_of_le (List.length_filter_le _ _)

/-- The preorder handle collection inside collectTargetHandles: a truthy
`target_collection_handle` is pushed, then children are traversed. -/
def collectTargetHandlesRaw : List MenuItemConfigEntry → List String
  | [] => []
  | .mk _ _ h _ children :: rest =>
    (match h with
      | some s => if s = "" then [] else [s]
      | none => []) ++
    collectTargetHandlesRaw children ++ collectTargetHandlesRaw rest

/-- collectTargetHandles from src/config/menusConfig.ts. -/
def collectTargetHandles (items : List MenuItemConfigEntry) : List String :=
  jsSetDedup (collectTargetHandlesRaw items)

/-- planSingleMenuSync from src/wyn/menus/menusSync.ts: menus referencing
missing collections get a noop plan carrying a BLOCKED change string; an
absent live menu (or a failed fetch, caught) plans a create; an existing live
menu always plans an update, never a noop. -/
def planSingleMenuSync (fetched : Fetched ShopifyMenu) (menu : MenuConfigEntry)
    (missingHandles : List String) : MenuSyncPlan :=
  let itemCount := countMenuItems menu.items
  let menuHandles := collectTargetHandles menu.items
  let missingInMenu := menuHandles.filter (fun h => missingHandles.contains h)
  if missingInMenu.length > 0 then
    { handle := menu.handle, title := menu.title, action := "noop"
      existingId := none, itemCount := itemCount
      changes := some ["BLOCKED: Missing collections: "
        ++ String.intercalate ", " missingInMenu] }
  else
    match fetched with
    | .failed _ =>
      { handle := menu.handle, title := menu.title, action := "create"
        existingId := none, itemCount := itemCount, changes := none }
    | .ok none =>
      { handle := menu.handle, title := menu.title, action := "create"
        existingId := none, itemCount := itemCount, changes := none }
    | .ok (some existing) =>
      { handle := menu.handle, title := menu.title, action := "update"
        existingId := some existing.id, itemCount := itemCount
        changes := some
          ["Existing items: " ++ toString (countShopifyMenuItems existing.items)
            ++ ", Config items: " ++ toString itemCount,
          "Will replace all menu items with config"] }

-- ===========================================
-- Menu-tree differ (compareMenuWithConfig, menuCleanup module)
-- ===========================================

/-- Preorder listing of a live menu tree, in the traversal order of
`mapCurrentItems` (each node is visited before its children, children before
later siblings). -/
def flattenShopifyItems : List ShopifyMenuItem → List ShopifyMenuItem
  | [] => []
  | .mk i t ty r u children :: rest =>
    ShopifyMenuItem.mk i t ty r u children ::
      (flattenShopifyItems children ++ flattenShopifyItems rest)

/-- Preorder listing of a declared menu tree, in the traversal order of
`mapConfigItems`. -/
def flattenConfigItems : List MenuItemConfigEntry → List MenuItemConfigEntry
  | [] => []
  | .mk t ty h u children :: rest =>
    MenuItemConfigEntry.mk t ty h u children ::
      (flattenConfigItems children ++ flattenConfigItems rest)

/-- The `currentItemsByTitle` map of compareMenuWithConfig: the traversal
issues `set(title.toLowerCase(), item)` at each node in preorder, which is the
fold of those inserts over the preorder listing. -/
def currentItemsByTitle (items : List ShopifyMenuItem) :
    List (String × ShopifyMenuItem) :=
  mapOfEntries ((flattenShopifyItems items).map
    (fun i => (lowerString i.title, i)))

/-- The `configItemsByTitle` map of compareMenuWithConfig. -/
def configItemsByTitle (items : List MenuItemConfigEntry) :
    List (String × MenuItemConfigEntry) :=
  mapOfEntries ((flattenConfigItems items).map
    (fun i => (lowerString i.title, i)))

/-- The needle of the collection-URL regex `\/collections\/([^/?]+)/`. -/
def collectionsNeedle : List Char := "/collections/".toList

/-- Leftmost match of `/collections/([^/?]+)` over a character list: at each
position where the needle occurs, the maximal run of characters other than
`/` and `?` after it is the capture, and the first position with a non-empty
capture wins. -/
def extractHandleChars : List Char → Option (List Char)
  | [] => none
  | c :: rest =>
    if collectionsNeedle.isPrefixOf (c :: rest) then
      let cap := ((c :: rest).drop collectionsNeedle.length).takeWhile
        (fun ch => ch ≠ '/' && ch ≠ '?')
      if cap ≠ [] then some cap else extractHandleChars rest
    else extractHandleChars rest

/-- Model of `url.match(/\/collections\/([^/?]+)/)`: the captured collection
handle, if the url contains one. -/
def extractCollectionHandle (url : String) : Option String :=
  (extractHandleChars url.toList).map List.asString

/-- One entry of the `collectionsToRedirect` output. -/
structure RedirectSuggestion where
  oldPath : String
  newPath : String
  reason : String
deriving DecidableEq, Repr

/-- One entry of the `itemsToUpdate` output. -/
structure MenuItemUpdate where
  current : ShopifyMenuItem
  desired : MenuItemConfigEntry
  changes : List String

/-- MenuComparisonResult from the menu cleanup module, restricted to the
computed diff outputs. -/
structure MenuComparisonResult where
  currentMenu : Option ShopifyMenu
  itemsToAdd : List MenuItemConfigEntry
  itemsToRemove : List ShopifyMenuItem
  itemsToUpdate : List MenuItemUpdate
  collectionsToRedirect : List RedirectSuggestion

/-- The redirect suggestion pushed for a removed live item: only collection
items with a truthy url whose url contains a `/collections/<handle>` path
produce one, targeting the hardcoded default `/collections/shop-all-what-you-need`. -/
def removalRedirectOf (item : ShopifyMenuItem) : List RedirectSuggestion :=
  if item.type = "COLLECTION" then
    match item.url with
    | some u =>
      if u = "" then []
      else
        match extractCollectionHandle u with
        | some h =>
          [{ oldPath := "/collections/" ++ h
             newPath := "/collections/shop-all-what-you-need"
             reason := "Menu item \"" ++ item.title ++ "\" being removed" }]
        | none => []
    | none => []
  else []

/-- The find-items-to-remove loop of compareMenuWithConfig: live map bindings
whose title key is absent from the declared map are removed, and collection
items among them additionally suggest a redirect. -/
def removalPass (cfgMap : List (String × MenuItemConfigEntry)) :
    List (String × ShopifyMenuItem) →
      List ShopifyMenuItem × List RedirectSuggestion
  | [] => ([], [])
  | (t, item) :: rest =>
    let tail := removalPass cfgMap rest
    if mapHasKey cfgMap t then tail
    else (item :: tail.1, removalRedirectOf item ++ tail.2)

/-- The per-item body of the find-items-to-update loop: the change strings and
the optional redirect suggestion for a title present on both sides. -/
def updateChangesFor (collectionIdByHandle : List (String × String))
    (cur : ShopifyMenuItem) (cfgItem : MenuItemConfigEntry) :
    List String × List RedirectSuggestion :=
  let configType := if cfgItem.type = "LINK" then "HTTP" else cfgItem.type
  let typeChanges :=
    if cur.type ≠ configType then
      ["Type: " ++ cur.type ++ " -> " ++ configType]
    else []
  if cfgItem.type = "COLLECTION" then
    match cfgItem.target_collection_handle with
    | some h =>
      (match mapLookup collectionIdByHandle h with
        | some desiredId =>
          if cur.resourceId ≠ some desiredId then
            (typeChanges ++
              ["Collection: " ++ cur.resourceId.getD "undefined" ++ " -> "
                ++ desiredId],
            match cur.url with
              | some u =>
                (match extractCollectionHandle u with
                  | some oldH =>
                    if oldH ≠ h then
                      [{ oldPath := "/collections/" ++ oldH
                         newPath := "/collections/" ++ h
                         reason := "Menu item \"" ++ cur.title
                           ++ "\" collection changed" }]
                    else []
                  | none => [])
              | none => [])
          else (typeChanges, [])
        | none => (typeChanges, []))
    | none => (typeChanges, [])
  else (typeChanges, [])

/-- The find-items-to-update loop over the declared map. -/
def updatePass (curMap : List (String × ShopifyMenuItem))
    (collectionIdByHandle : List (String × String)) :
    List (String × MenuItemConfigEntry) →
      List MenuItemUpdate × List RedirectSuggestion
  | [] => ([], [])
  | (t, cfgItem) :: rest =>
    let tail := updatePass curMap collectionIdByHandle rest
    match mapLookup curMap t with
    | some cur =>
      let body := updateChangesFor collectionIdByHandle cur cfgItem
      if body.1.length > 0 then
        ({ current := cur, desired := cfgItem, changes := body.1 } :: tail.1,
          body.2 ++ tail.2)
      else (tail.1, body.2 ++ tail.2)
    | none => tail

/-- compareMenuWithConfig from the menu cleanup module, applied to the fetched
live menu. With no live menu every declared item is an addition; otherwise
both trees are flattened into lowercased-title-keyed maps and diffed. -/
def compareMenuWithConfig (currentMenu : Option ShopifyMenu)
    (configMenu : MenuConfigEntry)
    (collectionIdByHandle : List (String × String)) : MenuComparisonResult :=
  match currentMenu with
  | none =>
    { currentMenu := none, itemsToAdd := configMenu.items, itemsToRemove := []
      itemsToUpdate := [], collectionsToRedirect := [] }
  | some cur =>
    let curMap := currentItemsByTitle cur.items
    let cfgMap := configItemsByTitle configMenu.items
    let removed := removalPass cfgMap curMap
    let added := cfgMap.filterMap (fun p =>
      if mapHasKey curMap p.1 then none else some p.2)
    let updated := updatePass curMap collectionIdByHandle cfgMap
    { currentMenu := some cur
      itemsToAdd := added
      itemsToRemove := removed.1
      itemsToUpdate := updated.1
      collectionsToRedirect := removed.2 ++ updated.2 }

-- ===========================================
-- Menu audit (auditMenu, menuCleanup module)
-- ===========================================

/-- MenuIssue from the menu cleanup module. -/
structure MenuIssue where
  type : String
  severity : String
  message : String
  itemTitle : Option String
  collectionHandle : Option String
deriving DecidableEq, Repr

/-- The duplicate-detection key of auditItems:
`type:title:(resourceId || url)`; an absent fallback stringifies to
`undefined` as the template literal does. -/
def auditItemKey (item : ShopifyMenuItem) : String :=
  let urlPart := match item.url with
    | some u => u
    | none => "undefined"
  item.type ++ ":" ++ item.title ++ ":" ++
    (match item.resourceId with
      | some r => if r = "" then urlPart else r
      | none => urlPart)

/-- JS truthiness of an optional string (absent and empty are falsy). -/
def truthyStr : Option String → Bool
  | some s => s ≠ ""
  | none => false

/-- Constructor for the issues auditItems pushes. -/
def mkIssue (ty sev msg : String) (itemTitle collectionHandle : Option String) :
    MenuIssue :=
  { type := ty, severity := sev, message := msg, itemTitle := itemTitle,
    collectionHandle := collectionHandle }

/-- The recursive auditItems walk of auditMenu, with the remote collection
lookup and the `new URL` validity check passed in as oracles over the
snapshot. The state threads the `seenItems` set and the issue list in push
order; a thrown collection lookup is swallowed by the surrounding catch. -/
def auditItems (lookupC : String → Fetched ShopifyCollection)
    (urlValid : String → Bool) :
    List ShopifyMenuItem → Nat → List String × List MenuIssue →
      List String × List MenuIssue
  | [], _, st => st
  | .mk i t ty r u children :: rest, depth, st =>
    let item := ShopifyMenuItem.mk i t ty r u children
    let afterDeep : List MenuIssue :=
      if depth > 2 then
        st.2 ++ [mkIssue "deep_nesting" "warning"
          ("Menu item \"" ++ t ++ "\" is nested " ++ toString (depth + 1)
            ++ " levels deep. Shopify only supports 3 levels.")
          (some t) none]
      else st.2
    let key := auditItemKey item
    let afterDup : List MenuIssue :=
      if st.1.contains key then
        afterDeep ++ [mkIssue "duplicate_item" "warning"
          ("Duplicate menu item found: \"" ++ t ++ "\"") (some t) none]
      else afterDeep
    let seen := st.1 ++ [key]
    let afterColl : List MenuIssue :=
      if ty = "COLLECTION" ∧ truthyStr r then
        match u with
        | some us =>
          if us = "" then afterDup
          else
            match extractCollectionHandle us with
            | some ch =>
              (match lookupC ch with
                | .failed _ => afterDup
                | .ok none =>
                  afterDup ++ [mkIssue "missing_collection" "error"
                    ("Collection \"" ++ ch ++ "\" referenced by menu item \""
                      ++ t ++ "\" does not exist")
                    (some t) (some ch)]
                | .ok (some coll) =>
                  if coll.productsCount = some 0 then
                    afterDup ++ [mkIssue "empty_collection" "warning"
                      ("Collection \"" ++ ch ++ "\" in menu item \"" ++ t
                        ++ "\" has 0 products")
                      (some t) (some ch)]
                  else afterDup)
            | none => afterDup
        | none => afterDup
      else afterDup
    let afterLink : List MenuIssue :=
      if ty = "HTTP" ∧ truthyStr u then
        match u with
        | some us =>
          if urlValid us then afterColl
          else
            afterColl ++ [mkIssue "broken_link" "error"
              ("Invalid URL in menu item \"" ++ t ++ "\": " ++ us)
              (some t) none]
        | none => afterColl
      else afterColl
    let stChildren := auditItems lookupC urlValid children (depth + 1)
      (seen, afterLink)
    auditItems lookupC urlValid rest depth stChildren

/-- The issue list auditMenu produces for a fetched live menu (the walk starts
at depth 0 with empty state). -/
def auditMenuIssues (lookupC : String → Fetched ShopifyCollection)
    (urlValid : String → Bool) (menu : ShopifyMenu) : List MenuIssue :=
  (auditItems lookupC urlValid menu.items 0 ([], [])).2

-- ===========================================
-- Shared proof helpers
-- ===========================================

/-- Unfolding of compareRuleSets when both sides carry rules. -/
theorem compareRuleSets_some_eq (ex : RuleSet) (sr : SmartRules)
    (cfg : CollectionConfigEntry) (hcfg : cfg.smart_rules = some sr) :
    compareRuleSets (some ex) cfg =
      (if ex.appliedDisjunctively ≠ sr.appliedDisjunctively then false
        else if ex.rules.length ≠ sr.conditions.length then false
        else (sr.conditions.map condKey).all
          (fun k => (ex.rules.map ruleKey).contains k)) := by
  simp only [compareRuleSets, hcfg]

/-- Boolean `all` is invariant under permutation of the list. -/
theorem all_perm_eq {l1 l2 : List String} (p : String → Bool)
    (h : l1.Perm l2) : l1.all p = l2.all p := by
  apply Bool.eq_iff_iff.mpr
  rw [List.all_eq_true, List.all_eq_true]
  exact ⟨fun hx x hmem => hx x (h.mem_iff.mpr hmem),
    fun hx x hmem => hx x (h.mem_iff.mp hmem)⟩

/-- Boolean `all` is invariant under a pointwise-equal predicate. -/
theorem all_congr_eq {l : List String} {p q : String → Bool}
    (h : ∀ x ∈ l, p x = q x) : l.all p = l.all q := by
  apply Bool.eq_iff_iff.mpr
  rw [List.all_eq_true, List.all_eq_true]
  exact ⟨fun hx x hmem => (h x hmem).symm.trans (hx x hmem),
    fun hx x hmem => (h x hmem).trans (hx x hmem)⟩

/-- Lookup on the empty map. -/
theorem mapLookup_nil {α : Type} (k : String) :
    mapLookup ([] : List (String × α)) k = none := rfl

/-- Lookup on a cons cell of an association list. -/
theorem mapLookup_cons {α : Type} (k1 : String) (v1 : α)
    (rest : List (String × α)) (k : String) :
    mapLookup ((k1, v1) :: rest) k =
      if k1 = k then some v1 else mapLookup rest k := by
  simp only [mapLookup, List.find?]
  rcases Decidable.em (k1 = k) with h | h
  · simp [h]
  · simp [h]

/-- Lookup after a JS-Map insert: the inserted key reads back the new value,
all other keys are unchanged. -/
theorem mapLookup_mapInsert {α : Type} (m : List (String × α)) (k k2 : String)
    (v : α) :
    mapLookup (mapInsert m k v) k2 =
      if k2 = k then some v else mapLookup m k2 := by
  induction m with
  | nil =>
    simp only [mapInsert]
    by_cases h : k2 = k
    · subst h
      simp [mapLookup_cons]
    · simp [mapLookup_cons, h, Ne.symm h, mapLookup_nil]
  | cons p rest ih =>
    rcases p with ⟨k1, v1⟩
    simp only [mapInsert]
    by_cases h1 : k1 = k
    · subst h1
      rw [if_pos rfl]
      by_cases h2 : k1 = k2
      · subst h2
        simp [mapLookup_cons]
      · simp [mapLookup_cons, h2, Ne.symm h2]
    · rw [if_neg h1]
      by_cases h2 : k1 = k2
      · subst h2
        simp [mapLookup_cons, h1]
      · simp [mapLookup_cons, h2, ih]

/-- Lookup over a fold of JS-Map inserts is none exactly when the key is
absent from the initial map and from the inserted entries. -/
theorem mapLookup_foldl_none {α : Type} (entries : List (String × α))
    (m : List (String × α)) (k : String) :
    mapLookup (entries.foldl (fun acc p => mapInsert acc p.1 p.2) m) k = none ↔
      (mapLookup m k = none ∧ k ∉ entries.map (fun p => p.1)) := by
  induction entries generalizing m with
  | nil => simp
  | cons p rest ih =>
    rcases p with ⟨k1, v1⟩
    simp only [List.foldl_cons, List.map_cons, List.mem_cons]
    rw [ih]
    rw [mapLookup_mapInsert]
    by_cases h : k = k1
    · simp [h]
    · simp [h]

/-- Lookup over a fold of JS-Map inserts returns a value from the initial map
or one of the inserted entries. -/
theorem mapLookup_foldl_some {α : Type} (entries : List (String × α))
    (m : List (String × α)) (k : String) (v : α)
    (h : mapLookup (entries.foldl (fun acc p => mapInsert acc p.1 p.2) m) k
      = some v) :
    mapLookup m k = some v ∨ (k, v) ∈ entries := by
  induction entries generalizing m with
  | nil => exact Or.inl h
  | cons p rest ih =>
    rcases p with ⟨k1, v1⟩
    rcases ih (mapInsert m k1 v1) h with h2 | h2
    · rw [mapLookup_mapInsert] at h2
      by_cases hk : k = k1
      · subst hk
        rw [if_pos rfl] at h2
        exact Or.inr (by simp [← Option.some_inj.mp h2])
      · rw [if_neg hk] at h2
        exact Or.inl h2
    · exact Or.inr (List.mem_cons_of_mem _ h2)

/-- The single-hop pass preserves every redirect's source path. -/
theorem consolidate_paths_eq (edges : List UrlRedirect) :
    (consolidateRedirectChains edges).finalEdges.map (fun e => e.path) =
      edges.map (fun e => e.path) := by
  simp only [consolidateRedirectChains, List.map_map]
  apply List.map_congr_left
  intro r _
  cases h : mapLookup (buildRedirectMap edges) r.target <;> simp [h]

-- ===========================================
-- C1: rule-set differ vs multiset equivalence
-- ===========================================

/-- Live rule set with two distinct TAG conditions, for the C1 counterexample. -/
def rsLiveXY : RuleSet :=
  { appliedDisjunctively := true,
    rules := [{ column := "TAG", relation := "EQUALS", condition := "x" },
              { column := "TAG", relation := "EQUALS", condition := "y" }] }

/-- Declared config whose condition list repeats the same condition twice, for
the C1 counterexample. -/
def cfgDupX : CollectionConfigEntry :=
  { key := "k", title := "T", handle := "h", description := "", type := "SMART",
    sort_order := none,
    smart_rules := some
      { appliedDisjunctively := true,
        conditions := [{ field := "TAG", relation := "EQUALS", value := "x" },
                       { field := "TAG", relation := "EQUALS", value := "x" }] } }

/-- C1 counterexample: compareRuleSets is not multiset equivalence. On the live
rule set {TAG=x, TAG=y} against the declared conditions {TAG=x, TAG=x} (equal
counts, matching flags) the differ returns true, although the normalized
condition multisets differ and the live condition TAG=y appears nowhere in the
declared config — the claim requires the result to be false here. -/
theorem compareRuleSets_not_multiset_cex :
    compareRuleSets (some rsLiveXY) cfgDupX = true ∧
    ¬ specRuleSetsEquivalent (some rsLiveXY) cfgDupX := by
  constructor
  · decide
  · intro h
    rcases h with ⟨-, hm⟩
    rw [Multiset.coe_eq_coe] at hm
    exact absurd hm (by decide)

/-- C1 amended: when both sides carry rules, compareRuleSets returns true on
every pair with matching flags and multiset-equal normalized condition keys,
and conversely a true result guarantees only matching flags, equal raw
condition counts, and that every declared condition key occurs among the live
keys — the subset check is one-directional, so a live-only condition can go
undetected when the declared side holds duplicates, while any count mismatch
(including one caused by a duplicate) still yields false. -/
theorem compareRuleSets_subset_check (ex : RuleSet)
    (cfg : CollectionConfigEntry) (sr : SmartRules)
    (hcfg : cfg.smart_rules = some sr) :
    ((ex.appliedDisjunctively = sr.appliedDisjunctively ∧
      Multiset.ofList (ex.rules.map ruleKey) =
        Multiset.ofList (sr.conditions.map condKey)) →
      compareRuleSets (some ex) cfg = true) ∧
    (compareRuleSets (some ex) cfg = true →
      ex.appliedDisjunctively = sr.appliedDisjunctively ∧
      ex.rules.length = sr.conditions.length ∧
      ∀ c ∈ sr.conditions, condKey c ∈ ex.rules.map ruleKey) := by
  have hunfold := compareRuleSets_some_eq ex sr cfg hcfg
  constructor
  · rintro ⟨hflag, hmul⟩
    have hperm : (ex.rules.map ruleKey).Perm (sr.conditions.map condKey) :=
      Multiset.coe_eq_coe.mp hmul
    have hlen : ex.rules.length = sr.conditions.length := by
      have := hperm.length_eq
      simpa using this
    rw [hunfold, if_neg (by simp [hflag]), if_neg (by simp [hlen])]
    rw [List.all_eq_true]
    intro k hk
    have : k ∈ ex.rules.map ruleKey := hperm.mem_iff.mpr hk
    exact List.elem_iff.mpr this
  · intro htrue
    rw [hunfold] at htrue
    by_cases hflag : ex.appliedDisjunctively = sr.appliedDisjunctively
    · by_cases hlen : ex.rules.length = sr.conditions.length
      · refine ⟨hflag, hlen, ?_⟩
        rw [if_neg (by simp [hflag]), if_neg (by simp [hlen])] at htrue
        intro c hc
        have := (List.all_eq_true.mp htrue) (condKey c)
          (List.mem_map_of_mem _ hc)
        exact List.elem_iff.mp this
      · rw [if_neg (by simp [hflag]), if_pos (by simp [hlen])] at htrue
        cases htrue
    · rw [if_pos (by simp [hflag])] at htrue
      cases htrue

/-- C1 witness: the amended theorem applied to the concrete pair whose
normalized keys are the equal multisets {TAG=x, TAG=x} on both sides. -/
theorem compareRuleSets_subset_check_witness :
    cfgDupX.smart_rules = some
      { appliedDisjunctively := true,
        conditions := [{ field := "TAG", relation := "EQUALS", value := "x" },
                       { field := "TAG", relation := "EQUALS", value := "x" }] } ∧
    compareRuleSets
      (some
        { appliedDisjunctively := true,
          rules := [{ column := "TAG", relation := "EQUALS", condition := "x" },
                    { column := "TAG", relation := "EQUALS", condition := "x" }] })
      cfgDupX = true := by
  refine ⟨rfl, ?_⟩
  exact (compareRuleSets_subset_check _ cfgDupX _ rfl).1 (by constructor <;> decide)

-- ===========================================
-- C10: reflexivity and reorder invariance
-- ===========================================

/-- C10: the rule-set differ is reflexive — a declared rule set compared
against its own live rendering (the payload buildCollectionInput creates)
returns true, and so does a config with no rules against an absent live rule
set — and reordering the conditions on the declared side, or the rules on the
live side, never changes the comparison result. -/
theorem compareRuleSets_refl_and_reorder_invariant :
    (∀ (cfg : CollectionConfigEntry) (sr : SmartRules),
      cfg.smart_rules = some sr →
      compareRuleSets (some (liveRuleSetOf sr)) cfg = true) ∧
    (∀ (cfg : CollectionConfigEntry), cfg.smart_rules = none →
      compareRuleSets none cfg = true) ∧
    (∀ (ex : RuleSet) (cfg cfg2 : CollectionConfigEntry) (sr sr2 : SmartRules),
      cfg.smart_rules = some sr → cfg2.smart_rules = some sr2 →
      sr2.appliedDisjunctively = sr.appliedDisjunctively →
      sr2.conditions.Perm sr.conditions →
      compareRuleSets (some ex) cfg2 = compareRuleSets (some ex) cfg) ∧
    (∀ (ex ex2 : RuleSet) (cfg : CollectionConfigEntry),
      ex2.appliedDisjunctively = ex.appliedDisjunctively →
      ex2.rules.Perm ex.rules →
      compareRuleSets (some ex2) cfg = compareRuleSets (some ex) cfg) := by
  refine ⟨?_, ?_, ?_, ?_⟩
  · intro cfg sr hcfg
    have hmap : (liveRuleSetOf sr).rules.map ruleKey =
        sr.conditions.map condKey := by
      simp only [liveRuleSetOf, List.map_map]
      rfl
    rw [compareRuleSets_some_eq (liveRuleSetOf sr) sr cfg hcfg]
    rw [if_neg (by simp [liveRuleSetOf])]
    rw [if_neg (by simp [liveRuleSetOf])]
    rw [List.all_eq_true]
    intro k hk
    apply List.elem_iff.mpr
    rw [hmap]
    exact hk
  · intro cfg h
    simp [compareRuleSets, h]
  · intro ex cfg cfg2 sr sr2 hcfg hcfg2 hflag hperm
    have hall : (sr2.conditions.map condKey).all
        (fun k => (ex.rules.map ruleKey).contains k) =
        (sr.conditions.map condKey).all
        (fun k => (ex.rules.map ruleKey).contains k) :=
      all_perm_eq _ (hperm.map condKey)
    rw [compareRuleSets_some_eq ex sr2 cfg2 hcfg2,
      compareRuleSets_some_eq ex sr cfg hcfg, hflag, hperm.length_eq, hall]
  · intro ex ex2 cfg hflag hperm
    cases hsr : cfg.smart_rules with
    | none => simp [compareRuleSets, hsr]
    | some sr =>
      have hall : (sr.conditions.map condKey).all
          (fun k => (ex2.rules.map ruleKey).contains k) =
          (sr.conditions.map condKey).all
          (fun k => (ex.rules.map ruleKey).contains k) := by
        apply all_congr_eq
        intro k hk
        apply Bool.eq_iff_iff.mpr
        rw [List.elem_iff, List.elem_iff]
        exact (hperm.map ruleKey).mem_iff
      rw [compareRuleSets_some_eq ex2 sr cfg hsr,
        compareRuleSets_some_eq ex sr cfg hsr, hflag, hperm.length_eq, hall]

/-- Declared smart rules used as concrete input by the C10 witness. -/
def c10sr : SmartRules :=
  { appliedDisjunctively := true,
    conditions := [{ field := "TAG", relation := "EQUALS",
                     value := "family:glass-bong" },
                   { field := "TAG", relation := "EQUALS",
                     value := "family:silicone-bong" }] }

/-- Declared config entry used as concrete input by the C10 witness. -/
def c10cfg : CollectionConfigEntry :=
  { key := "bongs", title := "Bongs", handle := "bongs", description := "",
    type := "SMART", sort_order := none, smart_rules := some c10sr }

/-- C10 witness: reflexivity applied to the concrete bongs config. -/
theorem compareRuleSets_refl_and_reorder_invariant_witness :
    c10cfg.smart_rules = some c10sr ∧
    compareRuleSets (some (liveRuleSetOf c10sr)) c10cfg = true :=
  ⟨rfl, compareRuleSets_refl_and_reorder_invariant.1 c10cfg c10sr rfl⟩

-- ===========================================
-- C2 / C3: redirect chain consolidator
-- ===========================================

/-- A pass over a snapshot in which no redirect's target is a source performs
zero consolidations. -/
theorem consolidated_zero_of_no_hits (l : List UrlRedirect)
    (h : ∀ e ∈ l, mapLookup (buildRedirectMap l) e.target = none) :
    (consolidateRedirectChains l).consolidated = 0 := by
  simp only [consolidateRedirectChains]
  rw [List.length_eq_zero, List.filterMap_eq_nil_iff]
  intro e he
  rw [h e he]
  rfl

/-- Three-hop chain fixture for C2: /a → /b → /c → /d with /d terminal. -/
def chainThree : List UrlRedirect :=
  [{ id := "1", path := "/a", target := "/b" },
   { id := "2", path := "/b", target := "/c" },
   { id := "3", path := "/c", target := "/d" }]

/-- C2 counterexample: on the chain /a→/b→/c→/d the consolidator does not
rewrite /a to the terminal node /d but only one hop to /c, leaving the
residual chain /a→/c→/d, and running the consolidator again on its own
output performs one further update rather than zero. -/
theorem consolidateRedirectChains_residual_chain_cex :
    (consolidateRedirectChains chainThree).finalEdges =
      [{ id := "1", path := "/a", target := "/c" },
       { id := "2", path := "/b", target := "/d" },
       { id := "3", path := "/c", target := "/d" }] ∧
    (consolidateRedirectChains
      (consolidateRedirectChains chainThree).finalEdges).consolidated = 1 := by
  constructor
  · decide
  · decide

/-- C2 amended: the consolidator collapses exactly one hop per pass — each
edge whose target is another edge's source path is retargeted to that edge's
original target. When the input has no two-hop continuation (every redirect
reached from another redirect's target is terminal), one pass leaves no edge
whose target is still a source and a second pass performs zero updates; on
the longer chain /a→/b→/c→/d the single pass instead produces
{/a→/c, /b→/d, /c→/d}, which still contains a chain. -/
theorem consolidateRedirectChains_single_hop :
    (∀ (edges : List UrlRedirect),
      (∀ r ∈ edges, ∀ nr ∈ edges, r.target = nr.path →
        nr.target ∉ edges.map (fun e => e.path)) →
      (∀ e ∈ (consolidateRedirectChains edges).finalEdges,
        mapLookup (buildRedirectMap (consolidateRedirectChains edges).finalEdges)
          e.target = none) ∧
      (consolidateRedirectChains
        ((consolidateRedirectChains edges).finalEdges)).consolidated = 0) ∧
    (consolidateRedirectChains chainThree).finalEdges =
      [{ id := "1", path := "/a", target := "/c" },
       { id := "2", path := "/b", target := "/d" },
       { id := "3", path := "/c", target := "/d" }] := by
  constructor
  · intro edges hshort
    have hpaths := consolidate_paths_eq edges
    have hnone : ∀ (k : String), k ∉ edges.map (fun e => e.path) →
        mapLookup (buildRedirectMap
          (consolidateRedirectChains edges).finalEdges) k = none := by
      intro k hk
      rw [buildRedirectMap, mapOfEntries, mapLookup_foldl_none]
      refine ⟨rfl, ?_⟩
      intro hmem
      apply hk
      rw [← hpaths]
      simpa using hmem
    have hmain : ∀ e ∈ (consolidateRedirectChains edges).finalEdges,
        mapLookup (buildRedirectMap
          (consolidateRedirectChains edges).finalEdges) e.target = none := by
      intro e he
      simp only [consolidateRedirectChains, List.mem_map] at he
      rcases he with ⟨r, hr, hre⟩
      cases hl : mapLookup (buildRedirectMap edges) r.target with
      | none =>
        rw [← hre]
        simp only [hl]
        apply hnone
        rw [buildRedirectMap, mapOfEntries, mapLookup_foldl_none] at hl
        intro hmem
        apply hl.2
        simpa using hmem
      | some nr =>
        rw [← hre]
        simp only [hl]
        apply hnone
        rw [buildRedirectMap, mapOfEntries] at hl
        have := mapLookup_foldl_some _ _ _ _ hl
        rcases this with habs | hin
        · rw [mapLookup_nil] at habs
          cases habs
        · simp only [List.mem_map] at hin
          rcases hin with ⟨nr2, hnr2, hpair⟩
          have hp1 : nr2.path = r.target := congrArg Prod.fst hpair
          have hp2 : nr2 = nr := congrArg Prod.snd hpair
          subst hp2
          exact hshort r hr nr2 hnr2 hp1.symm
    exact ⟨hmain, consolidated_zero_of_no_hits _ hmain⟩
  · decide

/-- Two-hop chain fixture for the C2 witness: /a→/b→/c with /c terminal. -/
def chainTwo : List UrlRedirect :=
  [{ id := "1", path := "/a", target := "/b" },
   { id := "2", path := "/b", target := "/c" }]

/-- C2 witness: the amended theorem applied to the two-hop chain, whose rerun
performs zero updates. -/
theorem consolidateRedirectChains_single_hop_witness :
    (∀ r ∈ chainTwo, ∀ nr ∈ chainTwo, r.target = nr.path →
      nr.target ∉ chainTwo.map (fun e => e.path)) ∧
    (consolidateRedirectChains
      ((consolidateRedirectChains chainTwo).finalEdges)).consolidated = 0 :=
  ⟨by decide, (consolidateRedirectChains_single_hop.1 chainTwo (by decide)).2⟩

/-- Cycle fixture for C3: /a → /b and /b → /a. -/
def cyclePair : List UrlRedirect :=
  [{ id := "1", path := "/a", target := "/b" },
   { id := "2", path := "/b", target := "/a" }]

/-- C3, evaluated at the failing input: on the true cycle {/a→/b, /b→/a} the
consolidator has no cycle detection at all — it rewrites both edges into the
self-loops /a→/a and /b→/b, counts two consolidations and reports two chain
records, instead of reporting one cycle and leaving both edges unchanged. -/
theorem consolidateRedirectChains_cycle_self_loops :
    (consolidateRedirectChains cyclePair).finalEdges =
      [{ id := "1", path := "/a", target := "/a" },
       { id := "2", path := "/b", target := "/b" }] ∧
    (consolidateRedirectChains cyclePair).consolidated = 2 ∧
    ∀ e ∈ (consolidateRedirectChains cyclePair).finalEdges,
      e.path = e.target := by
  refine ⟨by decide, by decide, by decide⟩

-- ===========================================
-- C4 / C8: sync planner classification
-- ===========================================

/-- C8 fixture: a declared collection entry. -/
def c8cfg : CollectionConfigEntry :=
  { key := "bongs", title := "Bongs", handle := "bongs", description := "",
    type := "SMART", sort_order := none,
    smart_rules := some
      { appliedDisjunctively := true,
        conditions := [{ field := "TAG", relation := "EQUALS",
                         value := "family:glass-bong" }] } }

/-- C8 fixture: a declared menu entry. -/
def c8menu : MenuConfigEntry :=
  { handle := "main-menu", title := "Main Menu",
    items := [.mk "Shop" "COLLECTION" (some "shop-all") none []] }

/-- C8 counterexample: a transport failure surfaced to the planner does not
produce a blocked plan entry — both planners catch the error and classify the
entity as create (planSingleCollectionSync comments "If we can't check, assume
create"). -/
theorem planner_fetch_failure_not_blocked_cex :
    (planSingleCollectionSync (.failed "network error") c8cfg).action
      = "create" ∧
    (planSingleCollectionSync (.failed "network error") c8cfg).action
      ≠ "blocked" ∧
    (planSingleMenuSync (.failed "network error") c8menu []).action
      = "create" := by
  refine ⟨by decide, by decide, ?_⟩
  simp [planSingleMenuSync, collectTargetHandles, collectTargetHandlesRaw,
    jsSetDedup, countMenuItems]

/-- C8 amended: when fetching the live entity fails, the planner treats the
entity as absent and classifies it create with no change annotations, for
collections unconditionally and for menus whenever no referenced collection is
missing (a missing reference short-circuits into the blocked noop before the
fetch is consulted). -/
theorem planner_fetch_failure_creates :
    (∀ (e : String) (c : CollectionConfigEntry),
      (planSingleCollectionSync (.failed e) c).action = "create" ∧
      (planSingleCollectionSync (.failed e) c).changes = none) ∧
    (∀ (e : String) (menu : MenuConfigEntry) (missingHandles : List String),
      ((collectTargetHandles menu.items).filter
        (fun h => missingHandles.contains h)).length = 0 →
      (planSingleMenuSync (.failed e) menu missingHandles).action = "create" ∧
      (planSingleMenuSync (.failed e) menu missingHandles).changes = none) := by
  constructor
  · intro e c
    exact ⟨rfl, rfl⟩
  · intro e menu missingHandles h
    rw [planSingleMenuSync]
    rw [if_neg (by rw [h]; simp)]
    exact ⟨rfl, rfl⟩

/-- C8 witness: the amended theorem applied to the concrete main menu with no
missing collections and a rate-limit failure. -/
theorem planner_fetch_failure_creates_witness :
    ((collectTargetHandles c8menu.items).filter
      (fun h => ([] : List String).contains h)).length = 0 ∧
    (planSingleMenuSync (.failed "rate limited") c8menu []).action = "create" := by
  have h0 : ((collectTargetHandles c8menu.items).filter
      (fun h => ([] : List String).contains h)).length = 0 := by
    simp
  exact ⟨h0, (planner_fetch_failure_creates.2 "rate limited" c8menu [] h0).1⟩

/-- C4 fixture: declared main menu with a single Shop item. -/
def c4cfgMenu : MenuConfigEntry :=
  { handle := "main-menu", title := "Main Menu",
    items := [.mk "Shop" "COLLECTION" (some "shop-all") none []] }

/-- C4 fixture: live main menu structurally identical to the declared one. -/
def c4liveMenu : ShopifyMenu :=
  { id := "gid-menu-1", handle := "main-menu", title := "Main Menu",
    items := [.mk "i1" "Shop" "COLLECTION" (some "gidS")
      (some "/collections/shop-all") []] }

/-- C4 counterexample: a live menu whose structure already matches the
declared one — the repository's own menu differ finds nothing to add, remove
or update — is still classified update, not noop, because planSingleMenuSync
always updates an existing menu ("we always update since comparing nested
structures is complex"). -/
theorem planSingleMenuSync_identical_menu_update_cex :
    (compareMenuWithConfig (some c4liveMenu) c4cfgMenu
      [("shop-all", "gidS")]).itemsToAdd = [] ∧
    (compareMenuWithConfig (some c4liveMenu) c4cfgMenu
      [("shop-all", "gidS")]).itemsToRemove = [] ∧
    (compareMenuWithConfig (some c4liveMenu) c4cfgMenu
      [("shop-all", "gidS")]).itemsToUpdate = [] ∧
    (planSingleMenuSync (.ok (some c4liveMenu)) c4cfgMenu []).action
      = "update" ∧
    (planSingleMenuSync (.ok (some c4liveMenu)) c4cfgMenu []).action
      ≠ "noop" := by
  refine ⟨?_, ?_, ?_, ?_, ?_⟩ <;>
    simp [compareMenuWithConfig, c4liveMenu, c4cfgMenu, currentItemsByTitle,
      configItemsByTitle, flattenShopifyItems, flattenConfigItems,
      mapOfEntries, mapInsert, mapLookup, mapHasKey, removalPass, updatePass,
      updateChangesFor, removalRedirectOf, lowerString, lowerChar,
      planSingleMenuSync, collectTargetHandles, collectTargetHandlesRaw,
      jsSetDedup, countMenuItems, countShopifyMenuItems,
      ShopifyMenuItem.title, ShopifyMenuItem.type, ShopifyMenuItem.url,
      ShopifyMenuItem.resourceId, MenuItemConfigEntry.title,
      MenuItemConfigEntry.type, MenuItemConfigEntry.target_collection_handle,
      List.find?]

/-- C4 amended: collections follow the claimed transition rule — absent live
entity plans create, present with no delta from determineCollectionChanges
plans noop, present with a delta plans update annotated with the delta
descriptions. Menus do not: an existing live menu always plans update
regardless of structural match, and an absent one plans create, in both cases
provided no referenced collection is missing. -/
theorem sync_planner_classification :
    (∀ (c : CollectionConfigEntry),
      (planSingleCollectionSync (.ok none) c).action = "create") ∧
    (∀ (ex : ShopifyCollection) (c : CollectionConfigEntry),
      determineCollectionChanges ex c = [] →
      (planSingleCollectionSync (.ok (some ex)) c).action = "noop") ∧
    (∀ (ex : ShopifyCollection) (c : CollectionConfigEntry),
      determineCollectionChanges ex c ≠ [] →
      (planSingleCollectionSync (.ok (some ex)) c).action = "update" ∧
      (planSingleCollectionSync (.ok (some ex)) c).changes =
        some (determineCollectionChanges ex c)) ∧
    (∀ (m : ShopifyMenu) (menu : MenuConfigEntry) (missing : List String),
      ((collectTargetHandles menu.items).filter
        (fun h => missing.contains h)).length = 0 →
      (planSingleMenuSync (.ok (some m)) menu missing).action = "update") ∧
    (∀ (menu : MenuConfigEntry) (missing : List String),
      ((collectTargetHandles menu.items).filter
        (fun h => missing.contains h)).length = 0 →
      (planSingleMenuSync (.ok none) menu missing).action = "create") := by
  refine ⟨?_, ?_, ?_, ?_, ?_⟩
  · intro c
    rfl
  · intro ex c h
    simp [planSingleCollectionSync, h]
  · intro ex c h
    have hlen : ¬ (determineCollectionChanges ex c).length = 0 := by
      intro h0
      exact h (List.length_eq_zero.mp h0)
    simp [planSingleCollectionSync, hlen]
  · intro m menu missing h
    rw [planSingleMenuSync]
    rw [if_neg (by rw [h]; simp)]
  · intro menu missing h
    rw [planSingleMenuSync]
    rw [if_neg (by rw [h]; simp)]

/-- C4 witness fixture: a live collection matching the declared entry. -/
def c4liveColl : ShopifyCollection :=
  { id := "gid-coll-1", handle := "bongs", title := "Bongs",
    sortOrder := none, ruleSet := none, productsCount := some 3 }

/-- C4 witness fixture: the matching declared entry with no rules. -/
def c4cfgColl : CollectionConfigEntry :=
  { key := "bongs", title := "Bongs", handle := "bongs", description := "",
    type := "MANUAL", sort_order := none, smart_rules := none }

/-- C4 witness fixture: a declared entry whose title differs from the live one. -/
def c4cfgColl2 : CollectionConfigEntry :=
  { key := "bongs", title := "Bongs and Rigs", handle := "bongs",
    description := "", type := "MANUAL", sort_order := none,
    smart_rules := none }

/-- C4 witness: the amended theorem applied to a matching live collection
(noop), a live collection with a differing title (update), and a live menu
identical to its declared config (still update). -/
theorem sync_planner_classification_witness :
    determineCollectionChanges c4liveColl c4cfgColl = [] ∧
    (planSingleCollectionSync (.ok (some c4liveColl)) c4cfgColl).action
      = "noop" ∧
    determineCollectionChanges c4liveColl c4cfgColl2 ≠ [] ∧
    (planSingleCollectionSync (.ok (some c4liveColl)) c4cfgColl2).action
      = "update" ∧
    ((collectTargetHandles c4cfgMenu.items).filter
      (fun h => ([] : List String).contains h)).length = 0 ∧
    (planSingleMenuSync (.ok (some c4liveMenu)) c4cfgMenu []).action
      = "update" := by
  have h0 : ((collectTargetHandles c4cfgMenu.items).filter
      (fun h => ([] : List String).contains h)).length = 0 := by simp
  exact ⟨by decide, sync_planner_classification.2.1 c4liveColl c4cfgColl (by decide),
    by decide, (sync_planner_classification.2.2.1 c4liveColl c4cfgColl2 (by decide)).1,
    h0, sync_planner_classification.2.2.2.1 c4liveMenu c4cfgMenu [] h0⟩

-- ===========================================
-- C7 / C9: tag validator
-- ===========================================

/-- Diagnostic counting distributes over list append. -/
theorem countErrType_append (a b : List TagAuditError) (ty : String) :
    countErrType (a ++ b) ty = countErrType a ty + countErrType b ty := by
  simp [countErrType, List.filter_append]

/-- Counting a singleton diagnostic. -/
theorem countErrType_single (p : ProductTagData) (ty1 msg ty : String) :
    countErrType [mkTagError p ty1 msg] ty = if ty1 = ty then 1 else 0 := by
  by_cases h : ty1 = ty <;> simp [countErrType, mkTagError, h]

/-- Counting the empty diagnostic list. -/
theorem countErrType_nil (ty : String) : countErrType [] ty = 0 := rfl

/-- Every diagnostic of the per-tag loop is an unknown-dimension or
unknown-value diagnostic. -/
theorem loopErrors_types (p : ProductTagData) (spec : ParsedTaggingSpec)
    (e : TagAuditError) (he : e ∈ loopErrors p spec) :
    e.errorType = "unknown_dimension" ∨ e.errorType = "unknown_value" := by
  simp only [loopErrors, List.mem_flatMap] at he
  rcases he with ⟨tag, -, hmem⟩
  rcases hparse : parseTag tag with _ | pt
  · rw [hparse] at hmem
    by_cases hs : looksStructured tag
    · rw [if_pos hs] at hmem
      rw [List.mem_singleton] at hmem
      subst hmem
      exact Or.inl rfl
    · rw [if_neg hs] at hmem
      cases hmem
  · rw [hparse] at hmem
    rcases hv : validateTag tag spec with _ | msg
    · rw [hv] at hmem
      cases hmem
    · rw [hv] at hmem
      rw [List.mem_singleton] at hmem
      subst hmem
      exact Or.inr rfl

/-- The per-tag loop contributes no diagnostics of a cardinality type. -/
theorem countErrType_loop_zero (p : ProductTagData) (spec : ParsedTaggingSpec)
    (ty : String) (h1 : ty ≠ "unknown_dimension") (h2 : ty ≠ "unknown_value") :
    countErrType (loopErrors p spec) ty = 0 := by
  simp only [countErrType, List.length_eq_zero, List.filter_eq_nil_iff]
  intro e he
  rcases loopErrors_types p spec e he with h | h <;> simp [h] <;>
    [exact fun hh => h1 hh.symm; exact fun hh => h2 hh.symm]

/-- Counting over a two-branch cardinality block whose diagnostic types both
differ from the counted type. -/
theorem countErrType_block2_ne (p : ProductTagData) (c0 c1 : Prop)
    [Decidable c0] [Decidable c1] (ty1 m1 ty2 m2 ty : String)
    (hA : ty1 ≠ ty) (hB : ty2 ≠ ty) :
    countErrType
      (if c0 then [mkTagError p ty1 m1]
        else if c1 then [mkTagError p ty2 m2] else []) ty = 0 := by
  by_cases h0 : c0 <;> by_cases h1 : c1 <;>
    simp [h0, h1, countErrType_single, countErrType_nil, hA, hB]

/-- Counting the first branch of a two-branch cardinality block. -/
theorem countErrType_block2_first (p : ProductTagData) (c0 c1 : Prop)
    [Decidable c0] [Decidable c1] (ty1 m1 ty2 m2 ty : String)
    (hA : ty1 = ty) (hB : ty2 ≠ ty) :
    countErrType
      (if c0 then [mkTagError p ty1 m1]
        else if c1 then [mkTagError p ty2 m2] else []) ty =
      (if c0 then 1 else 0) := by
  by_cases h0 : c0 <;> by_cases h1 : c1 <;>
    simp [h0, h1, countErrType_single, countErrType_nil, hA, hB]

/-- Counting the second branch of a two-branch cardinality block. -/
theorem countErrType_block2_second (p : ProductTagData) (c0 c1 : Prop)
    [Decidable c0] [Decidable c1] (ty1 m1 ty2 m2 ty : String)
    (hA : ty1 ≠ ty) (hB : ty2 = ty) :
    countErrType
      (if c0 then [mkTagError p ty1 m1]
        else if c1 then [mkTagError p ty2 m2] else []) ty =
      (if c0 then 0 else if c1 then 1 else 0) := by
  by_cases h0 : c0 <;> by_cases h1 : c1 <;>
    simp [h0, h1, countErrType_single, countErrType_nil, hA, hB]

/-- Counting over the single-branch use block. -/
theorem countErrType_block1 (p : ProductTagData) (c0 : Prop) [Decidable c0]
    (ty1 m1 ty : String) (hA : ty1 ≠ ty) :
    countErrType (if c0 then [mkTagError p ty1 m1] else []) ty = 0 := by
  by_cases h0 : c0 <;> simp [h0, countErrType_single, countErrType_nil, hA]


/-- Fixture spec for concrete tag-audit evaluations: the known dimensions with
small closed value sets. -/
def specFixture : ParsedTaggingSpec :=
  { allowedDimensions := ["pillar", "family", "brand", "material", "format",
      "use", "joint_size", "joint_angle", "joint_gender", "length",
      "capacity", "style", "bundle", "category"],
    allowedFamilies := ["glass-bong"], allowedBrands := [],
    allowedMaterials := [], allowedFormats := ["bong"],
    allowedUses := ["dabbing"], allowedStyles := [],
    allowedPillars := ["smokeshop-device", "accessory"] }

/-- Fixture product carrying two pillar tags and one family tag (and one
format and one use tag, so no required dimension is absent). -/
def pTwoPillars : ProductTagData :=
  { handle := "prod-1", title := "P1", vendor := "What You Need", type := "",
    tags := ["pillar:smokeshop-device", "pillar:accessory",
      "family:glass-bong", "format:bong", "use:dabbing"] }

/-- Fixture product with zero pillar tags. -/
def pNoPillar : ProductTagData :=
  { handle := "prod-2", title := "P2", vendor := "What You Need", type := "",
    tags := ["family:glass-bong", "format:bong", "use:dabbing"] }

/-- C7: for each ONE-cardinality dimension (pillar, family, format) the
validator emits exactly one missing-required diagnostic when zero tags carry
the dimension and exactly one duplicate-dimension diagnostic when more than
one tag carries it, for every tag set and schema; in particular the fixture
with two pillar tags and one family tag (format and use present) yields
exactly one duplicate diagnostic and zero missing diagnostics, and the fixture
with zero pillar tags yields exactly one missing-pillar diagnostic. -/
theorem validateProductTags_cardinality_counts :
    (∀ (p : ProductTagData) (spec : ParsedTaggingSpec),
      countErrType (validateProductTags p spec) "missing_pillar" =
        (if (collectDim "pillar" p.tags).length = 0 then 1 else 0) ∧
      countErrType (validateProductTags p spec) "multiple_pillars" =
        (if (collectDim "pillar" p.tags).length > 1 then 1 else 0) ∧
      countErrType (validateProductTags p spec) "missing_family" =
        (if (collectDim "family" p.tags).length = 0 then 1 else 0) ∧
      countErrType (validateProductTags p spec) "multiple_families" =
        (if (collectDim "family" p.tags).length > 1 then 1 else 0) ∧
      countErrType (validateProductTags p spec) "missing_format" =
        (if (collectDim "format" p.tags).length = 0 then 1 else 0) ∧
      countErrType (validateProductTags p spec) "multiple_formats" =
        (if (collectDim "format" p.tags).length > 1 then 1 else 0)) ∧
    (countErrType (validateProductTags pTwoPillars specFixture)
        "multiple_pillars" = 1 ∧
      countErrType (validateProductTags pTwoPillars specFixture)
        "multiple_families" = 0 ∧
      countErrType (validateProductTags pTwoPillars specFixture)
        "multiple_formats" = 0 ∧
      countErrType (validateProductTags pTwoPillars specFixture)
        "missing_pillar" = 0 ∧
      countErrType (validateProductTags pTwoPillars specFixture)
        "missing_family" = 0 ∧
      countErrType (validateProductTags pTwoPillars specFixture)
        "missing_format" = 0 ∧
      countErrType (validateProductTags pTwoPillars specFixture)
        "missing_use" = 0) ∧
    (countErrType (validateProductTags pNoPillar specFixture)
        "missing_pillar" = 1 ∧
      countErrType (validateProductTags pNoPillar specFixture)
        "missing_family" = 0 ∧
      countErrType (validateProductTags pNoPillar specFixture)
        "missing_format" = 0 ∧
      countErrType (validateProductTags pNoPillar specFixture)
        "missing_use" = 0 ∧
      countErrType (validateProductTags pNoPillar specFixture)
        "multiple_pillars" = 0 ∧
      countErrType (validateProductTags pNoPillar specFixture)
        "multiple_families" = 0 ∧
      countErrType (validateProductTags pNoPillar specFixture)
        "multiple_formats" = 0) := by
  refine ⟨?_, by decide, by decide⟩
  intro p spec
  have hsimp : ∀ (ty : String), ty ≠ "unknown_dimension" →
      ty ≠ "unknown_value" →
      countErrType (validateProductTags p spec) ty =
        countErrType
          (if (collectDim "pillar" p.tags).length = 0 then
            [mkTagError p "missing_pillar" "Missing pillar tag"]
          else if (collectDim "pillar" p.tags).length > 1 then
            [mkTagError p "multiple_pillars"
              ("Multiple pillar tags found: " ++ String.intercalate ", "
                (collectDim "pillar" p.tags))]
          else []) ty +
        countErrType
          (if (collectDim "family" p.tags).length = 0 then
            [mkTagError p "missing_family" "Missing family tag"]
          else if (collectDim "family" p.tags).length > 1 then
            [mkTagError p "multiple_families"
              ("Multiple family tags found: " ++ String.intercalate ", "
                (collectDim "family" p.tags))]
          else []) ty +
        countErrType
          (if (collectDim "format" p.tags).length = 0 then
            [mkTagError p "missing_format" "Missing format tag"]
          else if (collectDim "format" p.tags).length > 1 then
            [mkTagError p "multiple_formats"
              ("Multiple format tags found: " ++ String.intercalate ", "
                (collectDim "format" p.tags))]
          else []) ty +
        countErrType
          (if (collectDim "use" p.tags).length = 0 then
            [mkTagError p "missing_use" "Missing use tag"]
          else []) ty := by
    intro ty h1 h2
    simp only [validateProductTags, countErrType_append,
      countErrType_loop_zero p spec ty h1 h2]
    ring
  refine ⟨?_, ?_, ?_, ?_, ?_, ?_⟩
  · rw [hsimp "missing_pillar" (by decide) (by decide)]
    rw [countErrType_block2_first p _ _ _ _ _ _ _ rfl (by decide),
      countErrType_block2_ne p _ _ _ _ _ _ _ (by decide) (by decide),
      countErrType_block2_ne p _ _ _ _ _ _ _ (by decide) (by decide),
      countErrType_block1 p _ _ _ _ (by decide)]
    simp
  · rw [hsimp "multiple_pillars" (by decide) (by decide)]
    rw [countErrType_block2_second p _ _ _ _ _ _ _ (by decide) rfl,
      countErrType_block2_ne p _ _ _ _ _ _ _ (by decide) (by decide),
      countErrType_block2_ne p _ _ _ _ _ _ _ (by decide) (by decide),
      countErrType_block1 p _ _ _ _ (by decide)]
    by_cases h0 : (collectDim "pillar" p.tags).length = 0 <;> simp [h0]
  · rw [hsimp "missing_family" (by decide) (by decide)]
    rw [countErrType_block2_ne p _ _ _ _ _ _ _ (by decide) (by decide),
      countErrType_block2_first p _ _ _ _ _ _ _ rfl (by decide),
      countErrType_block2_ne p _ _ _ _ _ _ _ (by decide) (by decide),
      countErrType_block1 p _ _ _ _ (by decide)]
    simp
  · rw [hsimp "multiple_families" (by decide) (by decide)]
    rw [countErrType_block2_ne p _ _ _ _ _ _ _ (by decide) (by decide),
      countErrType_block2_second p _ _ _ _ _ _ _ (by decide) rfl,
      countErrType_block2_ne p _ _ _ _ _ _ _ (by decide) (by decide),
      countErrType_block1 p _ _ _ _ (by decide)]
    by_cases h0 : (collectDim "family" p.tags).length = 0 <;> simp [h0]
  · rw [hsimp "missing_format" (by decide) (by decide)]
    rw [countErrType_block2_ne p _ _ _ _ _ _ _ (by decide) (by decide),
      countErrType_block2_ne p _ _ _ _ _ _ _ (by decide) (by decide),
      countErrType_block2_first p _ _ _ _ _ _ _ rfl (by decide),
      countErrType_block1 p _ _ _ _ (by decide)]
    simp
  · rw [hsimp "multiple_formats" (by decide) (by decide)]
    rw [countErrType_block2_ne p _ _ _ _ _ _ _ (by decide) (by decide),
      countErrType_block2_ne p _ _ _ _ _ _ _ (by decide) (by decide),
      countErrType_block2_second p _ _ _ _ _ _ _ (by decide) rfl,
      countErrType_block1 p _ _ _ _ (by decide)]
    by_cases h0 : (collectDim "format" p.tags).length = 0 <;> simp [h0]


/-- Every element of a two-branch cardinality block is a diagnostic built for
the audited product. -/
theorem attr_of_mem_block2 (p : ProductTagData) (c0 c1 : Prop)
    [Decidable c0] [Decidable c1] (ty1 m1 ty2 m2 : String) (e : TagAuditError)
    (h : e ∈ (if c0 then [mkTagError p ty1 m1]
      else if c1 then [mkTagError p ty2 m2] else [])) :
    e.handle = p.handle ∧ e.title = p.title ∧ e.tags = p.tags := by
  by_cases h0 : c0
  · rw [if_pos h0] at h
    rw [List.mem_singleton] at h
    subst h
    exact ⟨rfl, rfl, rfl⟩
  · rw [if_neg h0] at h
    by_cases h1 : c1
    · rw [if_pos h1] at h
      rw [List.mem_singleton] at h
      subst h
      exact ⟨rfl, rfl, rfl⟩
    · rw [if_neg h1] at h
      cases h

/-- C9: tag validation is a total pure function into a diagnostics list — the
model is a total Lean function of its two inputs, and every diagnostic it
emits, on any tag set including separator-less or arbitrary tags, is
attributed to the audited product (its handle, title and tag list), so a
malformed product contributes diagnostics and never aborts the audit. -/
theorem validateProductTags_total_attribution (p : ProductTagData)
    (spec : ParsedTaggingSpec)
    (e : TagAuditError) (he : e ∈ validateProductTags p spec) :
    e.handle = p.handle ∧ e.title = p.title ∧ e.tags = p.tags := by
  simp only [validateProductTags, List.mem_append] at he
  rcases he with (((hl | h1) | h2) | h3) | h4
  · simp only [loopErrors, List.mem_flatMap] at hl
    rcases hl with ⟨tag, -, hmem⟩
    rcases hparse : parseTag tag with _ | pt
    · rw [hparse] at hmem
      by_cases hs : looksStructured tag
      · rw [if_pos hs, List.mem_singleton] at hmem
        subst hmem
        exact ⟨rfl, rfl, rfl⟩
      · rw [if_neg hs] at hmem
        cases hmem
    · rw [hparse] at hmem
      rcases hv : validateTag tag spec with _ | msg
      · rw [hv] at hmem
        cases hmem
      · rw [hv, List.mem_singleton] at hmem
        subst hmem
        exact ⟨rfl, rfl, rfl⟩
  · exact attr_of_mem_block2 p _ _ _ _ _ _ e h1
  · exact attr_of_mem_block2 p _ _ _ _ _ _ e h2
  · exact attr_of_mem_block2 p _ _ _ _ _ _ e h3
  · by_cases h0 : (collectDim "use" p.tags).length = 0
    · rw [if_pos h0, List.mem_singleton] at h4
      subst h4
      exact ⟨rfl, rfl, rfl⟩
    · rw [if_neg h0] at h4
      cases h4

/-- Fixture spec for the C9 witness. -/
def specC9 : ParsedTaggingSpec :=
  { allowedDimensions := ["pillar", "family", "brand", "material", "format",
      "use", "joint_size", "joint_angle", "joint_gender", "length",
      "capacity", "style", "bundle", "category"],
    allowedFamilies := ["glass-bong"], allowedBrands := [],
    allowedMaterials := [], allowedFormats := ["bong"],
    allowedUses := ["dabbing"], allowedStyles := [],
    allowedPillars := ["smokeshop-device", "accessory"] }

/-- Fixture product with malformed and arbitrary tags for the C9 witness. -/
def pMalformed : ProductTagData :=
  { handle := "prod-x", title := "PX", vendor := "What You Need", type := "",
    tags := ["glass-bong", "???", ":", "pillar:smokeshop-device:extra"] }

/-- C9 witness: the attribution theorem applied to a concrete malformed tag
set, at the diagnostic its structured-looking separator-less tag produces. -/
theorem validateProductTags_total_attribution_witness :
    mkTagError pMalformed "unknown_dimension"
        "Tag \"glass-bong\" is not in dimension:value format"
      ∈ validateProductTags pMalformed specC9 ∧
    ((mkTagError pMalformed "unknown_dimension"
        "Tag \"glass-bong\" is not in dimension:value format").handle
      = pMalformed.handle ∧
    (mkTagError pMalformed "unknown_dimension"
        "Tag \"glass-bong\" is not in dimension:value format").title
      = pMalformed.title ∧
    (mkTagError pMalformed "unknown_dimension"
        "Tag \"glass-bong\" is not in dimension:value format").tags
      = pMalformed.tags) :=
  ⟨by decide,
    validateProductTags_total_attribution pMalformed specC9 _ (by decide)⟩


-- ===========================================
-- C5: removed collection items produce redirects
-- ===========================================

/-- Every map binding whose title is absent from the declared map is put into
the removal list and all its redirect suggestions are emitted. -/
theorem removalPass_mem (cfgMap : List (String × MenuItemConfigEntry))
    (entries : List (String × ShopifyMenuItem)) (t : String)
    (item : ShopifyMenuItem) (hmem : (t, item) ∈ entries)
    (habs : mapHasKey cfgMap t = false) :
    item ∈ (removalPass cfgMap entries).1 ∧
    ∀ rs ∈ removalRedirectOf item, rs ∈ (removalPass cfgMap entries).2 := by
  induction entries with
  | nil => cases hmem
  | cons p rest ih =>
    rcases p with ⟨t1, i1⟩
    simp only [removalPass]
    rcases List.mem_cons.mp hmem with heq | hrest
    · have ht : t = t1 := congrArg Prod.fst heq
      have hi : item = i1 := congrArg Prod.snd heq
      subst ht
      subst hi
      rw [if_neg (by rw [habs]; simp)]
      refine ⟨List.mem_cons_self _ _, ?_⟩
      intro rs hrs
      exact List.mem_append_left _ hrs
    · rcases ih hrest with ⟨ha, hb⟩
      by_cases hk : mapHasKey cfgMap t1 = true
      · rw [if_pos hk]
        exact ⟨ha, hb⟩
      · rw [if_neg hk]
        refine ⟨List.mem_cons_of_mem _ ha, ?_⟩
        intro rs hrs
        exact List.mem_append_right _ (hb rs hrs)

/-- C5: for every binding of the flattened live title-keyed map whose
lowercased title is absent from the declared title-keyed map, when the item is
a collection item with a url containing a /collections/<handle> path, the
differ puts the item into itemsToRemove and synthesizes a redirect candidate
from that collection path to the fallback /collections/shop-all-what-you-need. -/
theorem compareMenuWithConfig_removed_collection_redirect (live : ShopifyMenu) (cfgMenu : MenuConfigEntry)
    (idMap : List (String × String)) (t : String) (item : ShopifyMenuItem)
    (u hdl : String)
    (hmem : (t, item) ∈ currentItemsByTitle live.items)
    (habs : mapHasKey (configItemsByTitle cfgMenu.items) t = false)
    (htype : item.type = "COLLECTION")
    (hurl : item.url = some u)
    (hextract : extractCollectionHandle u = some hdl) :
    item ∈ (compareMenuWithConfig (some live) cfgMenu idMap).itemsToRemove ∧
    ({ oldPath := "/collections/" ++ hdl,
       newPath := "/collections/shop-all-what-you-need",
       reason := "Menu item \"" ++ item.title ++ "\" being removed" } :
      RedirectSuggestion) ∈
      (compareMenuWithConfig (some live) cfgMenu idMap).collectionsToRedirect := by
  have hu : u ≠ "" := by
    intro h0
    subst h0
    cases hextract
  have hred : removalRedirectOf item =
      [{ oldPath := "/collections/" ++ hdl,
         newPath := "/collections/shop-all-what-you-need",
         reason := "Menu item \"" ++ item.title ++ "\" being removed" }] := by
    simp [removalRedirectOf, htype, hurl, hu, hextract]
  have hpass := removalPass_mem (configItemsByTitle cfgMenu.items)
    (currentItemsByTitle live.items) t item hmem habs
  simp only [compareMenuWithConfig]
  refine ⟨hpass.1, ?_⟩
  apply List.mem_append_left
  apply hpass.2
  rw [hred]
  exact List.mem_singleton_self _


/-- C5 witness fixtures. -/
def bongsItem : ShopifyMenuItem :=
  .mk "i1" "Bongs" "COLLECTION" (some "gidB") (some "/collections/bongs") []

def liveBongsMenu : ShopifyMenu :=
  { id := "gid-menu", handle := "main-menu", title := "Main Menu",
    items := [bongsItem,
      .mk "i2" "Shop" "COLLECTION" (some "gidS")
        (some "/collections/shop-all") []] }

def cfgBongsRemoved : MenuConfigEntry :=
  { handle := "main-menu", title := "Main Menu",
    items := [.mk "Shop" "COLLECTION" (some "shop-all") none []] }

/-- C5 witness: the theorem applied to the end-to-end Bongs scenario — the
live menu carries "Bongs" at /collections/bongs, the declared menu no longer
has it, so "Bongs" is removed and /collections/bongs is redirected to the
fallback. -/
theorem compareMenuWithConfig_removed_collection_redirect_witness :
    ("bongs", bongsItem) ∈ currentItemsByTitle liveBongsMenu.items ∧
    mapHasKey (configItemsByTitle cfgBongsRemoved.items) "bongs" = false ∧
    bongsItem ∈ (compareMenuWithConfig (some liveBongsMenu) cfgBongsRemoved
      []).itemsToRemove ∧
    ({ oldPath := "/collections/bongs",
       newPath := "/collections/shop-all-what-you-need",
       reason := "Menu item \"Bongs\" being removed" } : RedirectSuggestion) ∈
      (compareMenuWithConfig (some liveBongsMenu) cfgBongsRemoved
        []).collectionsToRedirect := by
  have hlow1 : lowerString "Bongs" = "bongs" := by decide
  have hlow2 : lowerString "Shop" = "shop" := by decide
  have h1 : ("bongs", bongsItem) ∈ currentItemsByTitle liveBongsMenu.items := by
    simp [currentItemsByTitle, liveBongsMenu, bongsItem, flattenShopifyItems,
      mapOfEntries, mapInsert, ShopifyMenuItem.title, hlow1, hlow2]
  have h2 : mapHasKey (configItemsByTitle cfgBongsRemoved.items) "bongs"
      = false := by
    simp [configItemsByTitle, cfgBongsRemoved, flattenConfigItems,
      mapOfEntries, mapInsert, mapHasKey, mapLookup, List.find?,
      MenuItemConfigEntry.title, hlow2]
  have hres := compareMenuWithConfig_removed_collection_redirect liveBongsMenu cfgBongsRemoved [] "bongs" bongsItem
    "/collections/bongs" "bongs" h1 h2 rfl rfl (by decide)
  have htitle : bongsItem.title = "Bongs" := rfl
  rw [htitle] at hres
  exact ⟨h1, h2, hres.1, hres.2⟩

-- ===========================================
-- C6: depth bound of the menu flattening
-- ===========================================

/-- The preorder flattening of a live menu forest lists exactly as many nodes
as countShopifyMenuItems counts, at every nesting depth. -/
theorem flattenShopifyItems_length : ∀ (items : List ShopifyMenuItem),
    (flattenShopifyItems items).length = countShopifyMenuItems items
  | [] => by simp [flattenShopifyItems, countShopifyMenuItems]
  | .mk i t ty r u children :: rest => by
    simp only [flattenShopifyItems, countShopifyMenuItems, List.length_cons,
      List.length_append]
    rw [flattenShopifyItems_length children, flattenShopifyItems_length rest]
    omega

/-- The preorder flattening of a declared menu forest lists exactly as many
nodes as countMenuItems counts. -/
theorem flattenConfigItems_length : ∀ (items : List MenuItemConfigEntry),
    (flattenConfigItems items).length = countMenuItems items
  | [] => by simp [flattenConfigItems, countMenuItems]
  | .mk t ty h u children :: rest => by
    simp only [flattenConfigItems, countMenuItems, List.length_cons,
      List.length_append]
    rw [flattenConfigItems_length children, flattenConfigItems_length rest]
    omega

/-- A key is present in a fold-built JS map exactly when some entry carries it. -/
theorem mapHasKey_mapOfEntries {α : Type} (entries : List (String × α))
    (k : String) :
    mapHasKey (mapOfEntries entries) k = true ↔
      k ∈ entries.map (fun p => p.1) := by
  rw [mapHasKey]
  constructor
  · intro h
    by_contra hmem
    have hnone : mapLookup (mapOfEntries entries) k = none :=
      (mapLookup_foldl_none entries [] k).mpr ⟨mapLookup_nil k, hmem⟩
    rw [hnone] at h
    cases h
  · intro hmem
    cases hl : mapLookup (mapOfEntries entries) k with
    | none =>
      have := (mapLookup_foldl_none entries [] k).mp hl
      exact absurd hmem this.2
    | some v => rfl

/-- C6 fixtures: a live menu nested four levels deep. -/
def deep4Item : ShopifyMenuItem :=
  .mk "i4" "Deep4" "HTTP" none (some "https://example.com/d") []

def deepLiveMenu : ShopifyMenu :=
  { id := "gid-m", handle := "main-menu", title := "Main",
    items := [.mk "i1" "L1" "HTTP" none (some "https://example.com/1")
      [.mk "i2" "L2" "HTTP" none (some "https://example.com/2")
        [.mk "i3" "L3" "HTTP" none (some "https://example.com/3")
          [deep4Item]]]] }

def deepCfgMenu : MenuConfigEntry :=
  { handle := "main-menu", title := "Main",
    items := [.mk "L1" "LINK" none (some "https://example.com/1") [],
      .mk "L2" "LINK" none (some "https://example.com/2") [],
      .mk "L3" "LINK" none (some "https://example.com/3") []] }

/-- C6 counterexample: the title-keyed flattening has no depth bound — a node
nested four levels deep in the live tree is keyed into the map and diffed like
any other: here the depth-4 item "Deep4", absent from the declared menu, lands
in itemsToRemove instead of being excluded from the diff. -/
theorem compareMenuWithConfig_depth_unbounded_cex :
    mapHasKey (currentItemsByTitle deepLiveMenu.items) "deep4" = true ∧
    deep4Item ∈ (compareMenuWithConfig (some deepLiveMenu) deepCfgMenu
      []).itemsToRemove := by
  have hl1 : lowerString "L1" = "l1" := by decide
  have hl2 : lowerString "L2" = "l2" := by decide
  have hl3 : lowerString "L3" = "l3" := by decide
  have hl4 : lowerString "Deep4" = "deep4" := by decide
  constructor
  · simp [currentItemsByTitle, deepLiveMenu, deep4Item, flattenShopifyItems,
      mapOfEntries, mapInsert, mapHasKey, mapLookup, List.find?,
      ShopifyMenuItem.title, hl1, hl2, hl3, hl4]
  · simp [compareMenuWithConfig, currentItemsByTitle, configItemsByTitle,
      deepLiveMenu, deepCfgMenu, deep4Item, flattenShopifyItems,
      flattenConfigItems, mapOfEntries, mapInsert, mapHasKey, mapLookup,
      List.find?, removalPass, removalRedirectOf, ShopifyMenuItem.title,
      ShopifyMenuItem.type, ShopifyMenuItem.url, MenuItemConfigEntry.title,
      hl1, hl2, hl3, hl4]

/-- The audit walk only appends to the issue list. -/
theorem auditItems_issues_mono (L : String → Fetched ShopifyCollection)
    (U : String → Bool) :
    ∀ (items : List ShopifyMenuItem) (depth : Nat)
      (st : List String × List MenuIssue),
      ∃ tail, (auditItems L U items depth st).2 = st.2 ++ tail := by
  intro items depth st
  induction items, depth, st using auditItems.induct L U with
  | case1 x st => exact ⟨[], by simp [auditItems]⟩
  | case2 i t ty r u children rest depth st item afterDeep key afterDup seen
      afterColl afterLink stChildren ih1 ih2 wf1 wf2 ih3 =>
    rcases ih1 with ⟨t1, h1⟩
    rcases ih3 with ⟨t2, h2⟩
    have hDeep : ∃ a, afterDeep = st.2 ++ a := by
      unfold_let afterDeep
      repeat' first
        | exact ⟨_, rfl⟩
        | exact ⟨[], (List.append_nil _).symm⟩
        | split
    have hDup : ∃ b, afterDup = afterDeep ++ b := by
      unfold_let afterDup
      repeat' first
        | exact ⟨_, rfl⟩
        | exact ⟨[], (List.append_nil _).symm⟩
        | split
    have hColl : ∃ c, afterColl = afterDup ++ c := by
      unfold_let afterColl
      repeat' first
        | exact ⟨_, rfl⟩
        | exact ⟨[], (List.append_nil _).symm⟩
        | split
    have hLink : ∃ d, afterLink = afterColl ++ d := by
      unfold_let afterLink
      repeat' first
        | exact ⟨_, rfl⟩
        | exact ⟨[], (List.append_nil _).symm⟩
        | split
    rcases hDeep with ⟨a, ha⟩
    rcases hDup with ⟨b, hb⟩
    rcases hColl with ⟨c, hc⟩
    rcases hLink with ⟨d, hd⟩
    refine ⟨a ++ b ++ c ++ d ++ t1 ++ t2, ?_⟩
    have hstep : auditItems L U (ShopifyMenuItem.mk i t ty r u children :: rest)
        depth st = auditItems L U rest depth stChildren := by
      rw [auditItems.eq_def]
      rfl
    rw [hstep, h2]
    unfold_let stChildren
    rw [h1]
    rw [show ((seen, afterLink).2) = afterLink from rfl]
    rw [hd, hc, hb, ha]
    simp

/-- Every item of a forest walked at depth greater than 2 (that is, nested
more than 3 levels deep) is reported with a deep_nesting warning; the walk
continues processing it rather than dropping it. -/
theorem auditItems_deep_mem (L : String → Fetched ShopifyCollection)
    (U : String → Bool) :
    ∀ (items : List ShopifyMenuItem) (depth : Nat)
      (st : List String × List MenuIssue) (x : ShopifyMenuItem),
      x ∈ items → depth > 2 →
      mkIssue "deep_nesting" "warning"
          ("Menu item \"" ++ x.title ++ "\" is nested " ++ toString (depth + 1)
            ++ " levels deep. Shopify only supports 3 levels.")
          (some x.title) none ∈ (auditItems L U items depth st).2 := by
  intro items depth st
  induction items, depth, st using auditItems.induct L U with
  | case1 x st =>
    intro y hy
    cases hy
  | case2 i t ty r u children rest depth st item afterDeep key afterDup seen
      afterColl afterLink stChildren ih1 ih2 wf1 wf2 ih3 =>
    intro x hx hdeep
    have hstep : auditItems L U (ShopifyMenuItem.mk i t ty r u children :: rest)
        depth st = auditItems L U rest depth stChildren := by
      rw [auditItems.eq_def]
      rfl
    rw [hstep]
    rcases List.mem_cons.mp hx with hxh | hxr
    · have hDup : ∃ b, afterDup = afterDeep ++ b := by
        unfold_let afterDup
        repeat' first
          | exact ⟨_, rfl⟩
          | exact ⟨[], (List.append_nil _).symm⟩
          | split
      have hColl : ∃ c, afterColl = afterDup ++ c := by
        unfold_let afterColl
        repeat' first
          | exact ⟨_, rfl⟩
          | exact ⟨[], (List.append_nil _).symm⟩
          | split
      have hLink : ∃ d, afterLink = afterColl ++ d := by
        unfold_let afterLink
        repeat' first
          | exact ⟨_, rfl⟩
          | exact ⟨[], (List.append_nil _).symm⟩
          | split
      rcases hDup with ⟨b, hb⟩
      rcases hColl with ⟨c, hc⟩
      rcases hLink with ⟨d, hdl⟩
      have hmemDeep : mkIssue "deep_nesting" "warning"
          ("Menu item \"" ++ x.title ++ "\" is nested " ++ toString (depth + 1)
            ++ " levels deep. Shopify only supports 3 levels.")
          (some x.title) none ∈ afterDeep := by
        unfold_let afterDeep
        rw [dif_pos hdeep]
        subst hxh
        apply List.mem_append_right
        exact List.mem_singleton_self _
      have hmemLink : mkIssue "deep_nesting" "warning"
          ("Menu item \"" ++ x.title ++ "\" is nested " ++ toString (depth + 1)
            ++ " levels deep. Shopify only supports 3 levels.")
          (some x.title) none ∈ afterLink := by
        rw [hdl, hc, hb]
        apply List.mem_append_left
        apply List.mem_append_left
        apply List.mem_append_left
        exact hmemDeep
      rcases auditItems_issues_mono L U rest depth stChildren with ⟨t2, h2⟩
      rw [h2]
      apply List.mem_append_left
      have hsc : stChildren.2 = afterLink ++
          (Classical.choose (auditItems_issues_mono L U children (depth + 1)
            (seen, afterLink))) := by
        have := Classical.choose_spec
          (auditItems_issues_mono L U children (depth + 1) (seen, afterLink))
        exact this
      rw [hsc]
      exact List.mem_append_left _ hmemLink
    · rcases auditItems_issues_mono L U rest depth stChildren with ⟨t2, h2⟩
      exact ih3 x hxr hdeep

/-- C6 amended: the flattening used by the menu differ recurses without any
depth bound — it lists exactly as many nodes as the tree contains at every
nesting depth, and a title is a key of the flattened map exactly when some
node at any depth carries it, so nodes deeper than 3 levels are diffed, not
excluded (the depth-4 fixture item is removed by the differ like any other).
Depth is checked only by the separate auditMenu walk, which flags every item
walked at depth greater than 2 (nested more than 3 levels) with a
deep_nesting warning while continuing to process it. -/
theorem menu_flatten_unbounded_audit_reports :
    (∀ (items : List ShopifyMenuItem),
      (flattenShopifyItems items).length = countShopifyMenuItems items) ∧
    (∀ (items : List MenuItemConfigEntry),
      (flattenConfigItems items).length = countMenuItems items) ∧
    (∀ (items : List ShopifyMenuItem) (t : String),
      mapHasKey (currentItemsByTitle items) t = true ↔
        t ∈ (flattenShopifyItems items).map (fun i => lowerString i.title)) ∧
    (∀ (L : String → Fetched ShopifyCollection) (U : String → Bool)
      (items : List ShopifyMenuItem) (depth : Nat)
      (st : List String × List MenuIssue) (x : ShopifyMenuItem),
      x ∈ items → depth > 2 →
      mkIssue "deep_nesting" "warning"
          ("Menu item \"" ++ x.title ++ "\" is nested " ++ toString (depth + 1)
            ++ " levels deep. Shopify only supports 3 levels.")
          (some x.title) none ∈ (auditItems L U items depth st).2) ∧
    deep4Item ∈ (compareMenuWithConfig (some deepLiveMenu) deepCfgMenu
      []).itemsToRemove := by
  have hl1 : lowerString "L1" = "l1" := by decide
  have hl2 : lowerString "L2" = "l2" := by decide
  have hl3 : lowerString "L3" = "l3" := by decide
  have hl4 : lowerString "Deep4" = "deep4" := by decide
  refine ⟨flattenShopifyItems_length, flattenConfigItems_length, ?_,
    auditItems_deep_mem, ?_⟩
  · intro items t
    rw [currentItemsByTitle, mapHasKey_mapOfEntries, List.map_map]
    exact Iff.rfl
  · simp [compareMenuWithConfig, currentItemsByTitle, configItemsByTitle,
      deepLiveMenu, deepCfgMenu, deep4Item, flattenShopifyItems,
      flattenConfigItems, mapOfEntries, mapInsert, mapHasKey, mapLookup,
      List.find?, removalPass, removalRedirectOf, ShopifyMenuItem.title,
      ShopifyMenuItem.type, ShopifyMenuItem.url, MenuItemConfigEntry.title,
      hl1, hl2, hl3, hl4]

/-- C6 witness: the deep-nesting report applied to the depth-4 fixture item
walked at depth 3, with an offline collection lookup. -/
theorem menu_flatten_unbounded_audit_reports_witness :
    deep4Item ∈ [deep4Item] ∧ (3 : Nat) > 2 ∧
    mkIssue "deep_nesting" "warning"
        ("Menu item \"" ++ deep4Item.title ++ "\" is nested "
          ++ toString (3 + 1) ++ " levels deep. Shopify only supports 3 levels.")
        (some deep4Item.title) none ∈
      (auditItems (fun _ => .failed "offline") (fun _ => true) [deep4Item] 3
        ([], [])).2 :=
  ⟨List.mem_singleton_self _, by decide,
    menu_flatten_unbounded_audit_reports.2.2.2.1
      (fun _ => Fetched.failed "offline") (fun _ => true) [deep4Item] 3
      ([], []) deep4Item (List.mem_singleton_self _) (by decide)⟩


end WynModel
